import Mathlib

/-!
Verification of the order/cart/inventory workflow of the perfume-shop
backend (files `cart.py` and `auth.py`).

The Python code is shallowly embedded: Python `str` values are Lean
`String`s (their `List Char` contents model Python's sequence of
characters), Python `int` is `Int`, JSON objects are records with
`Option` fields (`none` = key absent / `None`), the MySQL tables are
lists of row records inside a `DBState`, and a database transaction is
an `Except`-valued computation: an exception/rollback leaves the
persisted state untouched, only `commit` publishes the working state.
Monetary amounts are carried as `Int`: they are pass-through data here
and no verified property depends on their arithmetic.
-/

/-! ## Python string primitives -/

/-- The whitespace set of Python's `str.strip` (ASCII part). -/
def pyIsSpace (c : Char) : Bool :=
  c == ' ' || c == '\t' || c == '\n' || c == '\r' || c == '\x0b' || c == '\x0c'

/-- Python `s.strip()`. -/
def pyStrip (s : String) : String :=
  ⟨((s.data.dropWhile pyIsSpace).reverse.dropWhile pyIsSpace).reverse⟩

/-- Python `s.lower()`. -/
def pyLower (s : String) : String :=
  ⟨s.data.map Char.toLower⟩

/-- Python `s.startswith(pre)`. -/
def pyStartsWith (s pre : String) : Bool :=
  s.data.take pre.data.length == pre.data

/-- Python `s.replace(' ', '')`. -/
def stripSpaces (s : String) : String :=
  ⟨s.data.filter (fun c => c != ' ')⟩

/-- Python `s[-n:]` (for `n > 0`). -/
def pyTakeLast (n : Nat) (s : String) : String :=
  ⟨s.data.drop (s.data.length - n)⟩

/-- Python `s.isdigit()` (ASCII digits). -/
def pyIsDigit (s : String) : Bool :=
  !s.data.isEmpty && s.data.all Char.isDigit

/-! ## Token layer (`auth.py` issues, `cart.py` verifies)

A decoded token payload carries `user_id`, `username`, `role_id`
(role 1 = Admin, role 2 = Customer); `dict.get` on the decoded claims
is modelled with `Option` fields.  `jwt.decode` itself is modelled as
an abstract decoding function together with the one fact the proofs
need about real JWTs: a signed token is three base64url segments
joined by dots, so a string containing a space character never decodes
successfully. -/

structure TokenPayload where
  user_id : Int
  username : Option String
  role_id : Option Int
deriving DecidableEq, Repr

inductive DecodeResult where
  | ok (payload : TokenPayload)
  | expired
  | invalid
deriving DecidableEq, Repr

/-- The JWT layer: `decode` models `jwt.decode(…, SECRET_KEY, ['HS256'])`,
returning the payload, or `expired` (`ExpiredSignatureError`), or
`invalid` (`InvalidTokenError`).  `ok_no_space` is the modelling fact
that no string containing a space is a valid signed token. -/
structure TokenService where
  decode : String → DecodeResult
  ok_no_space : ∀ s p, decode s = .ok p → (' ' ∈ s.data) → False

/-- A generic HTTP response: status code plus a body abstraction
(the error message, or a condensed success body). -/
structure HttpResp where
  code : Nat
  body : String
deriving DecidableEq, Repr

/-- `cart.py::verify_customer_token` — rejects Bearer, accepts raw token,
requires `role_id == 2`. -/
def verify_customer_token (ts : TokenService) (auth : Option String) :
    Except (String × Nat) TokenPayload :=
  match auth with
  | none => .error ("Token missing", 401)
  | some token =>
    if token == "" then .error ("Token missing", 401)
    else if pyStartsWith (pyLower token) "bearer " then
      .error ("Use raw token, not Bearer", 401)
    else
      match ts.decode (pyStrip token) with
      | .ok d =>
        if d.role_id != some 2 then .error ("Access denied — Customer only", 403)
        else .ok d
      | .expired => .error ("Token expired", 401)
      | .invalid => .error ("Invalid token", 401)

/-- `cart.py::verify_admin_token` — same shape, requires `role_id == 1`. -/
def verify_admin_token (ts : TokenService) (auth : Option String) :
    Except (String × Nat) TokenPayload :=
  match auth with
  | none => .error ("Token missing", 401)
  | some token =>
    if token == "" then .error ("Token missing", 401)
    else if pyStartsWith (pyLower token) "bearer " then
      .error ("Use raw token, not Bearer", 401)
    else
      match ts.decode (pyStrip token) with
      | .ok d =>
        if d.role_id != some 1 then .error ("Access denied — Admin only", 403)
        else .ok d
      | .expired => .error ("Token expired", 401)
      | .invalid => .error ("Invalid token", 401)

/-- `cart.py::jwt_required` — the decorator guarding every Customer-only
endpoint of `cart.py`. -/
def jwt_required (ts : TokenService) (auth : Option String)
    (handler : TokenPayload → HttpResp) : HttpResp :=
  match verify_customer_token ts auth with
  | .error (msg, code) => ⟨code, msg⟩
  | .ok p => handler p

/-- `cart.py::admin_required` — the decorator guarding every Admin-only
endpoint of `cart.py`. -/
def admin_required (ts : TokenService) (auth : Option String)
    (handler : TokenPayload → HttpResp) : HttpResp :=
  match verify_admin_token ts auth with
  | .error (msg, code) => ⟨code, msg⟩
  | .ok p => handler p

/-- `auth.py::dashboard` — decodes the raw header (no strip, no bearer
check); a missing `role_id`/`username` claim raises `KeyError`, which the
framework turns into a 500. -/
def dashboard (ts : TokenService) (auth : Option String) : HttpResp :=
  match auth with
  | none => ⟨401, "Token missing"⟩
  | some token =>
    if token == "" then ⟨401, "Token missing"⟩
    else
      match ts.decode token with
      | .ok d =>
        match d.role_id, d.username with
        | some r, some u =>
          if r == 1 then ⟨200, s!"Welcome Admin {u}!"⟩
          else if r == 2 then ⟨200, s!"Welcome Customer {u}!"⟩
          else ⟨403, "Unknown role"⟩
        | _, _ => ⟨500, "Internal Server Error"⟩
      | .expired => ⟨401, "Token expired"⟩
      | .invalid => ⟨401, "Invalid token"⟩

/-- A row of the `users` table. -/
structure UserRow where
  id : Int
  username : String
  email : String
  phone_number : String
  role_id : Int
deriving DecidableEq, Repr

/-! ## Database model

One record per table of the schema used by `cart.py`/`auth.py`.
`created_at` columns (DB-side `NOW()`) are modelled as an `Int`
timestamp supplied by the caller where an insert needs one.
`nextOrderId` models the `AUTO_INCREMENT` counter behind
`cursor.lastrowid`. -/

/-- A row of the `perfumes` table. -/
structure Perfume where
  id : Int
  name : String
  price : Int
  quantity : Int
  size : Option String
  available : Bool
deriving DecidableEq, Repr

/-- A row of the `carts` table (the `added_at` column is presentation
ordering only and is omitted). -/
structure CartRow where
  user_id : Int
  perfume_id : Int
  quantity : Int
  size : Option String
deriving DecidableEq, Repr

/-- A row of the `orders` table. -/
structure OrderRow where
  id : Int
  user_id : Int
  total_amount : Int
  shipping_cost : Int
  tax_amount : Int
  shipping_first_name : String
  shipping_last_name : String
  shipping_email : String
  shipping_phone : String
  shipping_address : String
  shipping_city : String
  shipping_state : String
  shipping_zip : String
  payment_method : String
  status : String
  created_at : Int
deriving DecidableEq, Repr

/-- A row of the `order_items` table. -/
structure OrderItemRow where
  order_id : Int
  perfume_id : Int
  quantity : Int
  size : Option String
  unit_price : Int
deriving DecidableEq, Repr

/-- A row of the `payment_details` table: these are the only card
columns the schema receives from `checkout` — the full number and the
CVV have no column. -/
structure PaymentRow where
  order_id : Int
  payment_method : String
  card_last4 : String
  card_holder_name : String
  expiry : String
deriving DecidableEq, Repr

/-- The persisted database state. -/
structure DBState where
  users : List UserRow
  perfumes : List Perfume
  carts : List CartRow
  orders : List OrderRow
  orderItems : List OrderItemRow
  payments : List PaymentRow
  nextOrderId : Int
deriving DecidableEq, Repr

/-- SQL `COALESCE` on two nullable values. -/
def coalesce (a b : Option String) : Option String :=
  match a with
  | some s => some s
  | none => b

/-- `SELECT … FROM perfumes WHERE id = pid AND available = 1` —
the availability-checked lookup used by both `add_to_cart` and
`checkout`. -/
def findAvail (ps : List Perfume) (pid : Int) : Option Perfume :=
  ps.find? (fun p => p.id == pid && p.available)

/-- `auth.py::user_details` — decodes the raw header (no strip, no
bearer check) and echoes the user row; the JSON body is abstracted to
the username. -/
def user_details (ts : TokenService) (auth : Option String) (st : DBState) : HttpResp :=
  match auth with
  | none => ⟨401, "Valid Authorization header required"⟩
  | some token =>
    if token == "" then ⟨401, "Valid Authorization header required"⟩
    else
      match ts.decode token with
      | .ok d =>
        match st.users.find? (fun u => u.id == d.user_id) with
        | none => ⟨404, "User not found"⟩
        | some u => ⟨200, u.username⟩
      | .expired => ⟨401, "Token expired"⟩
      | .invalid => ⟨401, "Invalid token"⟩

/-! ## Cart Manager (`cart.py::add_to_cart`, `view_cart`)

`add_to_cart` is a batch of per-item upserts with per-item errors; the
single `conn.commit()` runs after the loop, so item failures never
roll back earlier successes.  Type-coercion failures of `int(...)`
(the `"Invalid data"` branch) lie outside this typed model: requests
are already well-typed records, with `Option` marking optional JSON
keys (`quantity` defaults to 1, `size` to the perfume's own size). -/

/-- One requested line of the `POST /cart` body. -/
structure AddItemReq where
  perfume_id : Int
  quantity : Option Int
  size : Option String
deriving DecidableEq, Repr

/-- One element of the response's `added` list. -/
structure AddedEntry where
  perfume_id : Int
  total_in_cart : Int
  size : Option String
deriving DecidableEq, Repr

/-- One element of the response's `errors` list. -/
structure ItemError where
  perfume_id : Int
  error : String
deriving DecidableEq, Repr

/-- The duplicate-key test of the `carts` table:
`user_id = %s AND perfume_id = %s AND COALESCE(size, '') = COALESCE(%s, '')`. -/
def cartKeyMatch (uid pid : Int) (sz : Option String) (r : CartRow) : Bool :=
  r.user_id == uid && r.perfume_id == pid && r.size.getD "" == sz.getD ""

/-- Current quantity of the `(user, perfume, size)` cart row (0 when the
row does not exist). -/
def cartQty (uid pid : Int) (sz : Option String) (rows : List CartRow) : Int :=
  ((rows.find? (cartKeyMatch uid pid sz)).map (·.quantity)).getD 0

/-- `INSERT … ON DUPLICATE KEY UPDATE quantity = VALUES(quantity),
size = COALESCE(VALUES(size), size)`. -/
def upsertCart (uid pid : Int) (sz : Option String) (q : Int)
    (rows : List CartRow) : List CartRow :=
  if rows.any (cartKeyMatch uid pid sz) then
    rows.map (fun r =>
      if cartKeyMatch uid pid sz r then
        { r with quantity := q, size := coalesce sz r.size }
      else r)
  else rows ++ [⟨uid, pid, q, sz⟩]

/-- The `"Only {stock} in stock (you have {current_qty})"` message. -/
def mkOnlyMsg (stock current_qty : Int) : String :=
  s!"Only {stock} in stock (you have {current_qty})"

/-- `use_size = size if size else db_size` — the requested size when
truthy, else the perfume's canonical size. -/
def addUseSize (it : AddItemReq) (pf : Perfume) : Option String :=
  match it.size with
  | some s => if s == "" then pf.size else some s
  | none => pf.size

/-- One iteration of the `add_to_cart` loop: yields either an `added`
entry (mutating the working state) or a per-item error (state
untouched). -/
def addOne (uid : Int) (st : DBState) (it : AddItemReq) :
    DBState × (AddedEntry ⊕ ItemError) :=
  let pid := it.perfume_id
  let qty := it.quantity.getD 1
  match findAvail st.perfumes pid with
  | none => (st, .inr ⟨pid, "Perfume not available"⟩)
  | some pf =>
    let stock := pf.quantity
    let use_size := addUseSize it pf
    let current_qty := cartQty uid pid use_size st.carts
    let new_total := current_qty + qty
    if stock < new_total then
      (st, .inr ⟨pid, mkOnlyMsg stock current_qty⟩)
    else
      ({ st with carts := upsertCart uid pid use_size new_total st.carts },
       .inl ⟨pid, new_total, use_size⟩)

/-- The `for item in items:` loop of `add_to_cart`: threads the
working state through the items, collecting `added` and `errors` in
order. -/
def addLoop (uid : Int) : List AddItemReq → DBState →
    DBState × List AddedEntry × List ItemError
  | [], st => (st, [], [])
  | it :: rest, st =>
    match addOne uid st it with
    | (st', .inl a) =>
      ((addLoop uid rest st').1, a :: (addLoop uid rest st').2.1,
       (addLoop uid rest st').2.2)
    | (st', .inr e) =>
      ((addLoop uid rest st').1, (addLoop uid rest st').2.1,
       e :: (addLoop uid rest st').2.2)

/-- The `POST /cart` response. -/
structure AddResp where
  code : Nat
  message : Option String
  added : List AddedEntry
  errors : List ItemError
deriving DecidableEq, Repr

/-- `cart.py::add_to_cart` (body of the handler, after `jwt_required`). -/
def add_to_cart (uid : Int) (items : List AddItemReq) (st : DBState) :
    AddResp × DBState :=
  if items.isEmpty then (⟨400, some "No items provided", [], []⟩, st)
  else
    let res := addLoop uid items st
    if !res.2.2.isEmpty && res.2.1.isEmpty then (⟨400, none, res.2.1, res.2.2⟩, res.1)
    else if !res.2.2.isEmpty then
      (⟨207, some "Partial success", res.2.1, res.2.2⟩, res.1)
    else (⟨201, some "All added", res.2.1, res.2.2⟩, res.1)

/-- One row of the `GET /cart` response. -/
structure CartViewRow where
  perfume_id : Int
  name : String
  price : Int
  quantity : Int
  size : Option String
  stock : Int
  in_stock : Bool
deriving DecidableEq, Repr

/-- `cart.py::view_cart` — inner join of the user's cart rows with
`perfumes`, annotated with the read-time `in_stock` flag (`ORDER BY
added_at` presentation ordering omitted). -/
def view_cart (uid : Int) (st : DBState) : List CartViewRow :=
  (st.carts.filter (fun c => c.user_id == uid)).filterMap (fun c =>
    (st.perfumes.find? (fun p => p.id == c.perfume_id)).map (fun p =>
      ⟨c.perfume_id, p.name, p.price, c.quantity, coalesce c.size p.size,
       p.quantity, decide (c.quantity ≤ p.quantity)⟩))

/-! ## Checkout / Order Engine (`cart.py::checkout`)

The handler validates the payload before opening a connection, then
runs one transaction; every error path returns without committing, so
the persisted state is unchanged (`conn.rollback()` / closing an
uncommitted connection).  This is modelled by `checkoutAux` returning
`Except (code × message) success`, with `checkout` publishing the
working state only in the `ok` case. -/

/-- The `shipping` block of the checkout body (`dict.get` fields). -/
structure ShippingReq where
  firstName : Option String
  lastName : Option String
  email : Option String
  phone : Option String
  address : Option String
  city : Option String
  state : Option String
  zip : Option String
deriving DecidableEq, Repr

/-- The `card_details` block of the checkout body. -/
structure CardReq where
  cardName : Option String
  cardNumber : Option String
  expiry : Option String
  cvv : Option String
deriving DecidableEq, Repr

/-- `data.get('card_details', {})` for an absent block. -/
def emptyCard : CardReq := ⟨none, none, none, none⟩

/-- One line of the checkout `items` list (`item['…']` keys that may be
absent are `Option`). -/
structure CheckoutItemReq where
  perfume_id : Option Int
  quantity : Option Int
  selectedSize : Option String
  price : Option Int
deriving DecidableEq, Repr

/-- The checkout request body. -/
structure CheckoutReq where
  shipping : Option ShippingReq
  payment_method : Option String
  items : Option (List CheckoutItemReq)
  totalPrice : Option Int
  tax : Option Int
  shippingCost : Option Int
  card_details : Option CardReq
deriving DecidableEq, Repr

/-- The `for field in required:` presence check, in source order. -/
def firstMissingField (d : CheckoutReq) : Option String :=
  if d.shipping.isNone then some "shipping"
  else if d.payment_method.isNone then some "payment_method"
  else if d.items.isNone then some "items"
  else if d.totalPrice.isNone then some "totalPrice"
  else if d.tax.isNone then some "tax"
  else if d.shippingCost.isNone then some "shippingCost"
  else none

/-- `not shipping.get(key) or not str(shipping[key]).strip()` — absent,
empty or whitespace-only. -/
def isBlank (v : Option String) : Bool :=
  match v with
  | none => true
  | some s => s == "" || pyStrip s == ""

/-- The shipping-field loop: first offending key, in source order. -/
def firstBadShipping (s : ShippingReq) : Option String :=
  if isBlank s.firstName then some "firstName"
  else if isBlank s.lastName then some "lastName"
  else if isBlank s.email then some "email"
  else if isBlank s.phone then some "phone"
  else if isBlank s.address then some "address"
  else if isBlank s.city then some "city"
  else if isBlank s.state then some "state"
  else if isBlank s.zip then some "zip"
  else none

/-- The card-validation loop of `checkout` (keys in source order
`cardName, cardNumber, expiry, cvv`): first error message, if any.
Note the card-number rule is a pure length check on the space-stripped
value; only the CVV has a digits check. -/
def firstCardError (c : CardReq) : Option String :=
  if isBlank c.cardName then some "Card cardName is required"
  else if isBlank c.cardNumber then some "Card cardNumber is required"
  else if (stripSpaces (c.cardNumber.getD "")).length < 13 ||
          19 < (stripSpaces (c.cardNumber.getD "")).length then
    some "Invalid card number"
  else if isBlank c.expiry then some "Card expiry is required"
  else if isBlank c.cvv then some "Card cvv is required"
  else if !(pyIsDigit (c.cvv.getD "") &&
            ((c.cvv.getD "").length == 3 || (c.cvv.getD "").length == 4)) then
    some "CVV must be 3 or 4 digits"
  else none

/-- The 404 message for a missing/unavailable perfume in checkout. -/
def mkNotFoundMsg (pid : Int) : String :=
  s!"Perfume ID {pid} not found or unavailable"

/-- The insufficient-stock message of checkout. -/
def mkLeftMsg (q : Int) (nm : String) : String :=
  s!"Only {q} left of {nm}"

/-- The `for item in items:` loop of `checkout`: per line item, parse
the fields, require a positive quantity, re-read availability and
stock from the working state, insert the `order_items` row and
decrement the stock; the first failure aborts the whole loop. -/
def processItems (oid : Int) : List CheckoutItemReq → DBState →
    Except (Nat × String) DBState
  | [], ws => .ok ws
  | it :: rest, ws =>
    match it.perfume_id, it.quantity, it.price with
    | some pid, some qty, some price =>
      let size :=
        match it.selectedSize with
        | some s => if s == "" then none else some s
        | none => none
      if qty ≤ 0 then .error (400, "Quantity must be positive")
      else
        match findAvail ws.perfumes pid with
        | none => .error (404, mkNotFoundMsg pid)
        | some pf =>
          if pf.quantity < qty then
            .error (400, mkLeftMsg pf.quantity pf.name)
          else
            processItems oid rest
              { ws with
                orderItems := ws.orderItems ++ [⟨oid, pid, qty, size, price⟩],
                perfumes := ws.perfumes.map (fun p =>
                  if p.id == pid then { p with quantity := p.quantity - qty } else p) }
    | _, _, _ => .error (400, "Invalid item data format")

/-- The data of a successful checkout. -/
structure CheckoutSuccess where
  order_id : Int
  status : String
  payment_method : String
  total : Int
  newState : DBState
deriving DecidableEq, Repr

/-- `=== 1. Create Order ===` — the `orders` INSERT (status `'pending'`,
trimmed shipping snapshot, lowercased email). -/
def mkOrderRow (uid now oid : Int) (shipping : ShippingReq) (payment_method : String)
    (totalPrice shippingCost tax : Int) : OrderRow :=
  { id := oid, user_id := uid,
    total_amount := totalPrice, shipping_cost := shippingCost,
    tax_amount := tax,
    shipping_first_name := pyStrip (shipping.firstName.getD ""),
    shipping_last_name := pyStrip (shipping.lastName.getD ""),
    shipping_email := pyLower (pyStrip (shipping.email.getD "")),
    shipping_phone := pyStrip (shipping.phone.getD ""),
    shipping_address := pyStrip (shipping.address.getD ""),
    shipping_city := pyStrip (shipping.city.getD ""),
    shipping_state := pyStrip (shipping.state.getD ""),
    shipping_zip := pyStrip (shipping.zip.getD ""),
    payment_method := payment_method, status := "pending",
    created_at := now }

/-- Open the transaction's working state with the new order row
(`cursor.lastrowid` = the consumed `nextOrderId`). -/
def openTx (st : DBState) (order : OrderRow) : DBState :=
  { st with orders := st.orders ++ [order], nextOrderId := st.nextOrderId + 1 }

/-- Steps 3–5 of `checkout`: save the masked card row when paying by
card, clear the user's whole cart, and set the final status (`'paid'`
for card, `'cod_pending'` for cod); returns the final status and the
state to commit. -/
def finalizeTx (uid oid : Int) (payment_method : String) (card_details : CardReq)
    (ws1 : DBState) : String × DBState :=
  -- === 3. Save Card (masked) ===
  let ws2 :=
    if payment_method == "card" then
      { ws1 with payments := ws1.payments ++
          [⟨oid, "card",
            pyTakeLast 4 (stripSpaces (card_details.cardNumber.getD "")),
            card_details.cardName.getD "",
            card_details.expiry.getD ""⟩] }
    else ws1
  -- === 4. Clear Cart ===
  let ws3 := { ws2 with carts := ws2.carts.filter (fun c => !(c.user_id == uid)) }
  -- === 5. Final Status ===
  let final_status := if payment_method == "card" then "paid" else "cod_pending"
  (final_status,
   { ws3 with orders := ws3.orders.map (fun o =>
       if o.id == oid then { o with status := final_status } else o) })

/-- `cart.py::checkout` as an `Except` computation: `.error` is any
non-201 response (the transaction, if opened, is rolled back). -/
def checkoutAux (uid now : Int) (d : CheckoutReq) (st : DBState) :
    Except (Nat × String) CheckoutSuccess :=
  match d.shipping, d.payment_method, d.items, d.totalPrice, d.tax, d.shippingCost with
  | some shipping, some pmRaw, some items, some totalPrice, some tax, some shippingCost =>
    let payment_method := pyLower pmRaw
    let card_details := d.card_details.getD emptyCard
    if payment_method != "card" && payment_method != "cod" then
      .error (400, "payment_method must be \x27card\x27 or \x27cod\x27")
    else if items.isEmpty then
      .error (400, "Items must be a non-empty list")
    else
      match firstBadShipping shipping with
      | some k => .error (400, s!"Shipping {k} is required and cannot be empty")
      | none =>
        match (if payment_method == "card" then firstCardError card_details else none) with
        | some msg => .error (400, msg)
        | none =>
          let oid := st.nextOrderId
          let ws := openTx st
            (mkOrderRow uid now oid shipping payment_method totalPrice shippingCost tax)
          -- === 2. Process Items & Deduct Stock ===
          match processItems oid items ws with
          | .error e => .error e
          | .ok ws1 =>
            .ok ⟨oid, (finalizeTx uid oid payment_method card_details ws1).1,
                 payment_method, totalPrice + shippingCost + tax,
                 (finalizeTx uid oid payment_method card_details ws1).2⟩
  | _, _, _, _, _, _ =>
    let f := (firstMissingField d).getD ""
    .error (400, s!"Missing required field: {f}")

/-- The `POST /checkout` response. -/
inductive CheckoutRes where
  | err (code : Nat) (msg : String)
  | ok (order_id : Int) (status : String) (payment_method : String) (total : Int)
deriving DecidableEq, Repr

/-- `cart.py::checkout`: commit on success, rollback (persisted state
unchanged) on any error. -/
def checkout (uid now : Int) (d : CheckoutReq) (st : DBState) :
    CheckoutRes × DBState :=
  match checkoutAux uid now d st with
  | .error (c, m) => (.err c m, st)
  | .ok s => (.ok s.order_id s.status s.payment_method s.total, s.newState)

/-! ## Recent orders (`cart.py::recent_orders`) -/

/-- The fault scenarios the handler degrades over: no connection
(`"Loading..."`), or an exception while querying (`"Try again"`). -/
inductive RecentFault where
  | ok
  | dbDown
  | queryError
deriving DecidableEq, Repr

/-- The `GET /recent-orders` response; the per-order presentation
fields (formatted date, photo URLs, grand total) are omitted and the
selected order rows returned directly. -/
structure RecentResp where
  code : Nat
  orders : List OrderRow
  message : String
deriving DecidableEq, Repr

/-- Lines 417–419: `limit = request.args.get('limit', 5, type=int)`,
then clamp below to 1 and above to 20. -/
def effectiveLimit (limitParam : Option Int) : Int :=
  let l := limitParam.getD 5
  let l1 := if l < 1 then 1 else l
  if l1 > 20 then 20 else l1

/-- Insert into a list kept sorted by `created_at` descending. -/
def insertDesc (o : OrderRow) : List OrderRow → List OrderRow
  | [] => [o]
  | x :: xs => if x.created_at ≤ o.created_at then o :: x :: xs else x :: insertDesc o xs

/-- `ORDER BY created_at DESC`. -/
def sortOrdersDesc : List OrderRow → List OrderRow
  | [] => []
  | x :: xs => insertDesc x (sortOrdersDesc xs)

/-- `cart.py::recent_orders` (body after `jwt_required`). -/
def recent_orders (uid : Int) (limitParam : Option Int)
    (fault : RecentFault) (st : DBState) : RecentResp :=
  let lim := effectiveLimit limitParam
  match fault with
  | .dbDown => ⟨200, [], "Loading..."⟩
  | .queryError => ⟨200, [], "Try again"⟩
  | .ok =>
    let rows := (sortOrdersDesc (st.orders.filter (fun o => o.user_id == uid))).take lim.toNat
    if rows.isEmpty then ⟨200, [], "No orders yet"⟩
    else ⟨200, rows, "Your latest orders"⟩

/-! ## Admin status update (`cart.py::admin_update_order_status`) -/

/-- The allowed status set (`allowed = {…}`). -/
def allowedStatuses : List String :=
  ["pending", "paid", "cod_pending", "shipped", "delivered", "cancelled"]

/-- The `PATCH /admin/orders/<id>/status` response. -/
structure StatusResp where
  code : Nat
  msg : String
  new_status : Option String
deriving DecidableEq, Repr

/-- The 400 message for a bad status value (alphabetically sorted
allowed set, as `', '.join(sorted(allowed))` produces). -/
def invalidStatusMsg (ns : String) : String :=
  s!"Invalid status \x27{ns}\x27. Allowed: cancelled, cod_pending, delivered, paid, pending, shipped"

/-- `cart.py::admin_update_order_status` (body after `admin_required`);
`statusParam` is the status taken from JSON body, form data or query
string. -/
def admin_update_order_status (order_id : Int) (statusParam : Option String)
    (st : DBState) : StatusResp × DBState :=
  match statusParam with
  | none =>
    (⟨400, "Missing \x27status\x27 (provide JSON body \x7b\"status\": ...\x7d, form data, or ?status=...)", none⟩, st)
  | some raw =>
    let new_status := pyLower (pyStrip raw)
    if !allowedStatuses.contains new_status then
      (⟨400, invalidStatusMsg new_status, none⟩, st)
    else
      match st.orders.find? (fun o => o.id == order_id) with
      | none => (⟨404, "Order not found", none⟩, st)
      | some _ =>
        (⟨200, "Status updated", some new_status⟩,
         { st with orders := st.orders.map (fun o =>
             if o.id == order_id then { o with status := new_status } else o) })

/-! ## Claim-level predicates and fixtures -/

/-- The `(user_id, perfume_id, COALESCE(size,''))` key of a cart row. -/
def cartKey (r : CartRow) : Int × Int × String :=
  (r.user_id, r.perfume_id, r.size.getD "")

/-- Key uniqueness of the cart ledger (the table's unique key). -/
def keysUnique (rows : List CartRow) : Prop :=
  rows.Pairwise (fun a b => cartKey a ≠ cartKey b)

/-- Spec reading of the card-validation rules of claim C5: holder
name, number, expiry and CVV present and non-blank, the number 13–19
characters long once spaces are stripped, the CVV 3 or 4 numeric
digits.  Compared below against the source validator
`firstCardError`. -/
def cardFieldsWellFormed (c : CardReq) : Bool :=
  (match c.cardName with | some s => !(pyStrip s == "") | none => false) &&
  (match c.cardNumber with
   | some s => !(pyStrip s == "") &&
       decide (13 ≤ (stripSpaces s).length) && decide ((stripSpaces s).length ≤ 19)
   | none => false) &&
  (match c.expiry with | some s => !(pyStrip s == "") | none => false) &&
  (match c.cvv with
   | some s => pyIsDigit s && ((s.length == 3) || (s.length == 4))
   | none => false)

/-- A checkout line item with all parsed fields present and a positive
quantity (the items that survive the format and positivity checks). -/
def wfPosItem (it : CheckoutItemReq) : Bool :=
  it.perfume_id.isSome && it.price.isSome &&
  (match it.quantity with | some q => decide (0 < q) | none => false)

/-- A line item that must make checkout fail against catalog `ps`:
its perfume is missing/unavailable, or has less stock than requested. -/
def badItem (ps : List Perfume) (it : CheckoutItemReq) : Bool :=
  match it.perfume_id, it.quantity with
  | some pid, some q =>
    (match findAvail ps pid with
     | none => true
     | some pf => decide (pf.quantity < q))
  | _, _ => false

/-- The checkout payload passes the whole pure validation phase
(everything before the transaction opens). -/
def checkoutValid (d : CheckoutReq) : Bool :=
  match d.shipping, d.payment_method, d.items with
  | some sh, some pm, some its =>
    let pml := pyLower pm
    (pml == "card" || pml == "cod") && !its.isEmpty &&
    (firstBadShipping sh).isNone &&
    (!(pml == "card") || (firstCardError (d.card_details.getD emptyCard)).isNone) &&
    (d.totalPrice.isSome && d.tax.isSome && d.shippingCost.isSome)
  | _, _, _ => false

/-- The returned checkout error names an offending line item: either
the 404 about a perfume id that is indeed missing/unavailable, or the
stock message about a perfume of the list with the remaining stock. -/
def errNamesItem (ps : List Perfume) (items : List CheckoutItemReq)
    (c : Nat) (m : String) : Prop :=
  ∃ it ∈ items, ∃ pid, it.perfume_id = some pid ∧
    ((c = 404 ∧ m = mkNotFoundMsg pid ∧ findAvail ps pid = none) ∨
     (c = 400 ∧ ∃ q pf, findAvail ps pid = some pf ∧ m = mkLeftMsg q pf.name ∧
        q ≤ pf.quantity))

/-- Pointwise catalog relation along a checkout transaction: same
perfumes (id, name, availability), stock possibly decremented. -/
def perfumesLE (ps' ps : List Perfume) : Prop :=
  List.Forall₂ (fun p' p =>
    p'.id = p.id ∧ p'.name = p.name ∧ p'.available = p.available ∧
    p'.quantity ≤ p.quantity) ps' ps

/-- Demo catalog: one available perfume, id 5, stock 10. -/
def stScen : DBState :=
  ⟨[], [⟨5, "Rose", 100, 10, some "50ml", true⟩], [], [], [], [], 1⟩

/-- State after the scenario's first add (quantity 2). -/
def stScen1 : DBState := (add_to_cart 7 [⟨5, some 2, none⟩] stScen).2

/-- State after the scenario's second add (quantity 3, cumulative 5). -/
def stScen2 : DBState := (add_to_cart 7 [⟨5, some 3, none⟩] stScen1).2

/-- Demo order table: a single order with id 1 in status `pending`. -/
def stOrder1 : DBState :=
  ⟨[], [], [],
   [⟨1, 1, 200, 5, 10, "A", "B", "a@b.c", "1", "addr", "city", "st", "zip", "cod", "pending", 99⟩],
   [], [], 2⟩

/-- A demo decoder: two known raw tokens, everything else invalid. -/
def demoDecode : String → DecodeResult := fun s =>
  if s == "admintok" then .ok ⟨1, some "root", some 1⟩
  else if s == "custtok" then .ok ⟨2, some "alice", some 2⟩
  else .invalid

/-- The demo token service. -/
def demoTs : TokenService where
  decode := demoDecode
  ok_no_space := by
    intro s p h hs
    unfold demoDecode at h
    split at h
    · rename_i h1
      rw [beq_iff_eq] at h1
      subst h1
      exact absurd hs (by decide)
    · split at h
      · rename_i h2
        rw [beq_iff_eq] at h2
        subst h2
        exact absurd hs (by decide)
      · cases h

/-- A demo handler for exercising the middleware. -/
def demoHandler : TokenPayload → HttpResp := fun _ => ⟨200, "handled"⟩

/-- Demo checkout shipping block. -/
def shipDemo : ShippingReq :=
  ⟨some "A", some "B", some "a@b.c", some "1", some "addr", some "city", some "st", some "zip"⟩

/-- Demo COD checkout payload: 2 units of perfume 5. -/
def codDemo : CheckoutReq :=
  ⟨some shipDemo, some "cod", some [⟨some 5, some 2, none, some 100⟩],
   some 200, some 10, some 5, none⟩

/-- Demo card checkout payload. -/
def cardDemo : CheckoutReq :=
  { codDemo with
    payment_method := some "card",
    card_details := some ⟨some "A B", some "4111 1111 1111 1111", some "12/26", some "123"⟩ }

/-- Demo catalog state where user 1 already has a cart row. -/
def stScen1cart : DBState := { stScen with carts := [⟨1, 5, 2, some "50ml"⟩] }

/-- Demo payload ordering more units (20) than the stock (10). -/
def overDemo : CheckoutReq :=
  { codDemo with items := some [⟨some 5, some 20, none, some 100⟩] }

/-- Demo card payload whose card number is too short once stripped. -/
def shortCardDemo : CheckoutReq :=
  { cardDemo with
    card_details := some ⟨some "A B", some "4111", some "12/26", some "123"⟩ }

/-! ## Helper lemmas -/

theorem char_ofNat_toNat (n : Nat) (h : n.isValidChar) : (Char.ofNat n).toNat = n := by
  simp [Char.ofNat, h, Char.ofNatAux, Char.toNat, UInt32.toNat]

theorem toLower_eq_space (c : Char) (h : c.toLower = ' ') : c = ' ' := by
  unfold Char.toLower at h
  by_cases hc : c.toNat ≥ 65 ∧ c.toNat ≤ 90
  · rw [if_pos hc] at h
    have h2 := congrArg Char.toNat h
    rw [char_ofNat_toNat _ (by left; omega)] at h2
    have h3 : (' ' : Char).toNat = 32 := by decide
    omega
  · simpa [if_neg hc] using h

/-- A header whose lowercasing starts with `"bearer "` contains a
space — hence (by `TokenService.ok_no_space`) it can never itself be a
valid signed token. -/
theorem bearer_has_space {s : String}
    (h : pyStartsWith (pyLower s) "bearer " = true) : ' ' ∈ s.data := by
  rw [pyStartsWith, beq_iff_eq] at h
  have hm : ' ' ∈ (pyLower s).data.take ("bearer ".data.length) := by
    rw [h]; decide
  have hm2 : ' ' ∈ s.data.map Char.toLower := List.mem_of_mem_take hm
  obtain ⟨c, hc, hlow⟩ := List.mem_map.mp hm2
  rwa [toLower_eq_space c hlow] at hc

theorem bearer_ne_empty {s : String}
    (h : pyStartsWith (pyLower s) "bearer " = true) : (s == "") = false := by
  rw [beq_eq_false_iff_ne]
  rintro rfl
  simp [pyStartsWith, pyLower] at h

/-! ## C9: recent orders — always 200, clamped limit -/

/-- C9: every `GET /recent-orders` outcome — connection failure, query
exception, or success — carries status 200; the effective limit is the
client limit clamped into 1–20, defaulting to 5 when absent, and at
most that many orders are returned. -/
theorem claim_C9 :
    (∀ uid limitParam fault st, (recent_orders uid limitParam fault st).code = 200)
  ∧ effectiveLimit none = 5
  ∧ (∀ n : Int, effectiveLimit (some n) = min 20 (max 1 n))
  ∧ (∀ uid limitParam fault st,
      (recent_orders uid limitParam fault st).orders.length ≤
        (effectiveLimit limitParam).toNat) := by
  refine ⟨?_, by decide, ?_, ?_⟩
  · intro uid limitParam fault st
    cases fault <;> simp only [recent_orders] <;> try rfl
    split <;> rfl
  · intro n
    simp only [effectiveLimit, Option.getD_some]
    split_ifs <;> omega
  · intro uid limitParam fault st
    cases fault <;> simp only [recent_orders] <;> try simp
    split
    · simp
    · simp only []
      calc ((sortOrdersDesc (st.orders.filter (fun o => o.user_id == uid))).take
              (effectiveLimit limitParam).toNat).length
          ≤ (effectiveLimit limitParam).toNat := by
            rw [List.length_take]; exact min_le_left _ _

/-! ## C7: admin status update -/

/-- C7 counterexample: the claim says a call whose `new_status` is not
in the allowed set is rejected, but the handler normalises first:
`"SHIPPED"` is not in the set yet the call succeeds (200) and persists
`"shipped"`. -/
theorem claim_C7_counterexample :
    allowedStatuses.contains "SHIPPED" = false
  ∧ (admin_update_order_status 1 (some "SHIPPED") stOrder1).1.code = 200
  ∧ (admin_update_order_status 1 (some "SHIPPED") stOrder1).1.new_status = some "shipped"
  ∧ ∀ o ∈ (admin_update_order_status 1 (some "SHIPPED") stOrder1).2.orders,
      o.status = "shipped" := by decide

/-- C7 (amended): with `new_status` normalised by trimming and
lowercasing first — reject 400 when the normalised value is outside
the allowed set; else 404 when the order does not exist; else apply
the normalised status unconditionally, whatever the current status
(the state is universally quantified); a missing status parameter is a
400. -/
theorem claim_C7 (oid : Int) (s : String) (st : DBState) :
    (allowedStatuses.contains (pyLower (pyStrip s)) = false →
      admin_update_order_status oid (some s) st =
        (⟨400, invalidStatusMsg (pyLower (pyStrip s)), none⟩, st))
  ∧ (allowedStatuses.contains (pyLower (pyStrip s)) = true →
      st.orders.find? (fun o => o.id == oid) = none →
      admin_update_order_status oid (some s) st = (⟨404, "Order not found", none⟩, st))
  ∧ (allowedStatuses.contains (pyLower (pyStrip s)) = true →
      ∀ o₀, st.orders.find? (fun o => o.id == oid) = some o₀ →
      (admin_update_order_status oid (some s) st).1 =
        ⟨200, "Status updated", some (pyLower (pyStrip s))⟩
      ∧ ∀ o ∈ (admin_update_order_status oid (some s) st).2.orders,
          o.id = oid → o.status = pyLower (pyStrip s))
  ∧ (admin_update_order_status oid none st).1.code = 400 := by
  refine ⟨?_, ?_, ?_, by rfl⟩
  · intro h
    have h' : pyLower (pyStrip s) ∉ allowedStatuses := by simpa using h
    simp [admin_update_order_status, h']
  · intro h1 h2
    have h' : pyLower (pyStrip s) ∈ allowedStatuses := by simpa using h1
    simp [admin_update_order_status, h', h2]
  · intro h1 o₀ h2
    have h' : pyLower (pyStrip s) ∈ allowedStatuses := by simpa using h1
    have hres : admin_update_order_status oid (some s) st =
        (⟨200, "Status updated", some (pyLower (pyStrip s))⟩,
         { st with orders := st.orders.map (fun o =>
             if o.id == oid then { o with status := pyLower (pyStrip s) } else o) }) := by
      simp [admin_update_order_status, h', h2]
    rw [hres]
    refine ⟨rfl, ?_⟩
    intro o ho hid
    obtain ⟨o', ho', rfl⟩ := List.mem_map.mp ho
    by_cases hb : o'.id = oid
    · simp [hb]
    · rw [if_neg (by simp [hb] : ¬(o'.id == oid) = true)] at hid
      exact absurd hid hb

/-- C7 witness: the spec scenario — updating order 999, which does
not exist, with a well-formed status returns 404. -/
theorem claim_C7_witness :
    admin_update_order_status 999 (some "shipped") stOrder1 =
      (⟨404, "Order not found", none⟩, stOrder1) :=
  (claim_C7 999 "shipped" stOrder1).2.1 (by decide) (by decide)

/-! ## C4: role enforcement and bearer rejection -/

/-- C4: (i) a Customer token (`role_id = 2`) is rejected 403 by the
`admin_required` middleware wrapping every Admin-only endpoint, for
any handler; (ii) an Admin token (`role_id = 1`) is rejected 403 by
the `jwt_required` middleware wrapping every Customer-only endpoint;
(iii) a header whose value starts (case-insensitively) with
`"bearer "` is rejected 401 on every protected endpoint — by both
`cart.py` middlewares for any token service whatsoever, and by
`auth.py`'s `dashboard`/`user_details`, where a bearer-prefixed string
can never decode (it contains a space) — whether or not the token
after the prefix would be valid. -/
theorem claim_C4 :
    (∀ (ts : TokenService) (t : String) (p : TokenPayload)
        (handler : TokenPayload → HttpResp),
      ts.decode (pyStrip t) = .ok p → p.role_id = some 2 → (t == "") = false →
      pyStartsWith (pyLower t) "bearer " = false →
      admin_required ts (some t) handler = ⟨403, "Access denied — Admin only"⟩)
  ∧ (∀ (ts : TokenService) (t : String) (p : TokenPayload)
        (handler : TokenPayload → HttpResp),
      ts.decode (pyStrip t) = .ok p → p.role_id = some 1 → (t == "") = false →
      pyStartsWith (pyLower t) "bearer " = false →
      jwt_required ts (some t) handler = ⟨403, "Access denied — Customer only"⟩)
  ∧ (∀ (ts : TokenService) (t : String) (handler : TokenPayload → HttpResp)
        (st : DBState),
      pyStartsWith (pyLower t) "bearer " = true →
      jwt_required ts (some t) handler = ⟨401, "Use raw token, not Bearer"⟩
      ∧ admin_required ts (some t) handler = ⟨401, "Use raw token, not Bearer"⟩
      ∧ (dashboard ts (some t)).code = 401
      ∧ (user_details ts (some t) st).code = 401) := by
  refine ⟨?_, ?_, ?_⟩
  · intro ts t p handler hdec hrole hne hbear
    simp only [admin_required, verify_admin_token, hne, Bool.false_eq_true, if_false,
      hbear, hdec, hrole]
    rfl
  · intro ts t p handler hdec hrole hne hbear
    simp only [jwt_required, verify_customer_token, hne, Bool.false_eq_true, if_false,
      hbear, hdec, hrole]
    rfl
  · intro ts t handler st hbear
    have hne := bearer_ne_empty hbear
    have hsp := bearer_has_space hbear
    have hdec : ∀ p, ts.decode t ≠ .ok p := fun p h => ts.ok_no_space t p h hsp
    refine ⟨?_, ?_, ?_, ?_⟩
    · simp [jwt_required, verify_customer_token, hne, hbear]
    · simp [admin_required, verify_admin_token, hne, hbear]
    · simp only [dashboard, hne, Bool.false_eq_true, if_false]
      cases hd : ts.decode t with
      | ok p => exact absurd hd (hdec p)
      | expired => rfl
      | invalid => rfl
    · simp only [user_details, hne, Bool.false_eq_true, if_false]
      cases hd : ts.decode t with
      | ok p => exact absurd hd (hdec p)
      | expired => rfl
      | invalid => rfl

/-- C4 witness: concrete runs against the demo token service — the
demo Customer token is 403 on the admin middleware, the demo Admin
token is 403 on the customer middleware, and a bearer-prefixed (but
otherwise valid) token is 401 everywhere. -/
theorem claim_C4_witness :
    admin_required demoTs (some "custtok") demoHandler = ⟨403, "Access denied — Admin only"⟩
  ∧ jwt_required demoTs (some "admintok") demoHandler = ⟨403, "Access denied — Customer only"⟩
  ∧ jwt_required demoTs (some "Bearer custtok") demoHandler = ⟨401, "Use raw token, not Bearer"⟩
  ∧ (dashboard demoTs (some "Bearer admintok")).code = 401 := by
  have h := claim_C4
  refine ⟨?_, ?_, ?_, ?_⟩
  · exact h.1 demoTs "custtok" ⟨2, some "alice", some 2⟩ demoHandler (by decide) rfl
      (by decide) (by decide)
  · exact h.2.1 demoTs "admintok" ⟨1, some "root", some 1⟩ demoHandler (by decide) rfl
      (by decide) (by decide)
  · exact (h.2.2 demoTs "Bearer custtok" demoHandler stScen (by decide)).1
  · exact (h.2.2 demoTs "Bearer admintok" demoHandler stScen (by decide)).2.2.1

/-! ## Cart upsert lemmas -/

theorem cartKeyMatch_iff (uid pid : Int) (sz : Option String) (r : CartRow) :
    cartKeyMatch uid pid sz r = true ↔ cartKey r = (uid, pid, sz.getD "") := by
  simp [cartKeyMatch, cartKey, Prod.ext_iff, and_assoc]

/-- The upsert's update keeps the row on the same cart key. -/
theorem upsert_upd_key (uid pid : Int) (sz : Option String) (q : Int) (r : CartRow)
    (h : cartKeyMatch uid pid sz r = true) :
    cartKey { r with quantity := q, size := coalesce sz r.size } = cartKey r := by
  rw [cartKeyMatch_iff] at h
  cases sz with
  | none => simp [cartKey, coalesce]
  | some s =>
    simp only [cartKey, coalesce, Option.getD_some, Prod.ext_iff] at h ⊢
    simp [h.2.2]

theorem find?_map_pred {α : Type} (p : α → Bool) (f : α → α)
    (hf : ∀ a, p (f a) = p a) (l : List α) :
    (l.map f).find? p = (l.find? p).map f := by
  induction l with
  | nil => rfl
  | cons a l ih =>
    by_cases hp : p a = true
    · simp [List.find?_cons, hf a, hp]
    · simp only [Bool.not_eq_true] at hp
      simp [List.find?_cons, hf a, hp, ih]

/-- After `upsertCart` the `(uid, pid, size)` row holds exactly `q`. -/
theorem upsert_cartQty (uid pid : Int) (sz : Option String) (q : Int)
    (rows : List CartRow) :
    cartQty uid pid sz (upsertCart uid pid sz q rows) = q := by
  unfold upsertCart
  by_cases hany : rows.any (cartKeyMatch uid pid sz) = true
  · rw [if_pos hany]
    unfold cartQty
    induction rows with
    | nil => simp at hany
    | cons r rest ih =>
      by_cases hr : cartKeyMatch uid pid sz r = true
      · have hkey : cartKeyMatch uid pid sz
            { r with quantity := q, size := coalesce sz r.size } = true := by
          rw [cartKeyMatch_iff, upsert_upd_key uid pid sz q r hr]
          exact (cartKeyMatch_iff uid pid sz r).mp hr
        simp [List.find?_cons, hr, hkey]
      · simp only [Bool.not_eq_true] at hr
        rcases List.any_eq_true.mp hany with ⟨x, hx, hpx⟩
        rcases List.mem_cons.mp hx with rfl | hx'
        · rw [hr] at hpx; cases hpx
        · have hany' : rest.any (cartKeyMatch uid pid sz) = true :=
            List.any_eq_true.mpr ⟨x, hx', hpx⟩
          simp only [List.map_cons]
          rw [if_neg (by simp [hr] : ¬cartKeyMatch uid pid sz r = true)]
          rw [List.find?_cons_of_neg _ (by simp [hr])]
          exact ih hany'
  · rw [if_neg hany]
    unfold cartQty
    have hnone : rows.find? (cartKeyMatch uid pid sz) = none := by
      rw [List.find?_eq_none]
      intro x hx hpx
      exact hany (List.any_eq_true.mpr ⟨x, hx, hpx⟩)
    have hself : cartKeyMatch uid pid sz (⟨uid, pid, q, sz⟩ : CartRow) = true := by
      simp [cartKeyMatch]
    rw [List.find?_append, hnone]
    simp [List.find?_cons, hself]

/-- `upsertCart` leaves every other cart key's quantity unchanged. -/
theorem upsert_cartQty_other (uid pid uid' pid' : Int) (sz sz' : Option String)
    (q : Int) (rows : List CartRow)
    (hne : (uid', pid', sz'.getD "") ≠ ((uid, pid, sz.getD "") : Int × Int × String)) :
    cartQty uid' pid' sz' (upsertCart uid pid sz q rows) =
      cartQty uid' pid' sz' rows := by
  unfold upsertCart
  by_cases hany : rows.any (cartKeyMatch uid pid sz) = true
  · rw [if_pos hany]
    unfold cartQty
    rw [find?_map_pred]
    · cases hf : rows.find? (cartKeyMatch uid' pid' sz') with
      | none => rfl
      | some r0 =>
        have hk' := List.find?_some hf
        by_cases hk : cartKeyMatch uid pid sz r0 = true
        · exact absurd (((cartKeyMatch_iff uid' pid' sz' r0).mp hk').symm.trans
            ((cartKeyMatch_iff uid pid sz r0).mp hk)) hne
        · simp [hk]
    · intro r
      by_cases hk : cartKeyMatch uid pid sz r = true
      · rw [if_pos hk]
        have hkey := upsert_upd_key uid pid sz q r hk
        rcases hb : cartKeyMatch uid' pid' sz' r with _ | _
        · rw [← Bool.not_eq_true] at hb ⊢
          rw [cartKeyMatch_iff] at hb ⊢
          rwa [hkey]
        · rw [cartKeyMatch_iff] at hb ⊢
          rwa [hkey]
      · rw [if_neg hk]
  · rw [if_neg hany]
    unfold cartQty
    rw [List.find?_append]
    have hnew : cartKeyMatch uid' pid' sz' (⟨uid, pid, q, sz⟩ : CartRow) = false := by
      rw [← Bool.not_eq_true, cartKeyMatch_iff]
      intro hc
      exact hne (by simpa [cartKey] using hc.symm)
    simp [List.find?_cons, hnew]

/-- `upsertCart` preserves key uniqueness of the ledger. -/
theorem upsert_keysUnique (uid pid : Int) (sz : Option String) (q : Int)
    (rows : List CartRow) (h : keysUnique rows) :
    keysUnique (upsertCart uid pid sz q rows) := by
  unfold upsertCart
  by_cases hany : rows.any (cartKeyMatch uid pid sz) = true
  · rw [if_pos hany]
    unfold keysUnique at h ⊢
    rw [List.pairwise_map]
    have hkey : ∀ x : CartRow,
        cartKey (if cartKeyMatch uid pid sz x = true then
          { x with quantity := q, size := coalesce sz x.size } else x) = cartKey x := by
      intro x
      by_cases hk : cartKeyMatch uid pid sz x = true
      · rw [if_pos hk]; exact upsert_upd_key uid pid sz q x hk
      · rw [if_neg hk]
    exact h.imp (fun hab => by rw [hkey, hkey]; exact hab)
  · rw [if_neg hany]
    unfold keysUnique at h ⊢
    rw [List.pairwise_append]
    refine ⟨h, List.pairwise_singleton _ _, ?_⟩
    intro a ha b hb
    rw [List.mem_singleton] at hb
    subst hb
    intro hcontra
    have hk : cartKeyMatch uid pid sz a = true :=
      (cartKeyMatch_iff uid pid sz a).mpr hcontra
    exact hany (List.any_eq_true.mpr ⟨a, ha, hk⟩)

/-! ## `addOne` / `addLoop` lemmas -/

/-- A per-item failure never touches the working state — it cannot
block or alter the handling of the other items of the batch. -/
theorem addOne_inr_state (uid : Int) (st : DBState) (it : AddItemReq)
    (st' : DBState) (e : ItemError) (h : addOne uid st it = (st', .inr e)) :
    st' = st := by
  unfold addOne at h
  cases hf : findAvail st.perfumes it.perfume_id with
  | none =>
    simp only [hf] at h
    injection h with h1 h2
    exact h1.symm
  | some pf =>
    simp only [hf] at h
    split at h
    · injection h with h1 h2
      exact h1.symm
    · injection h with h1 h2
      cases h2

/-- Behaviour of one item against an available perfume: reject with the
stock message when the cumulated total exceeds stock, else upsert the
cumulated total. -/
theorem addOne_avail (uid : Int) (st : DBState) (it : AddItemReq) (pf : Perfume)
    (hpf : findAvail st.perfumes it.perfume_id = some pf) :
    (pf.quantity <
        cartQty uid it.perfume_id (addUseSize it pf) st.carts + it.quantity.getD 1 →
      addOne uid st it = (st, .inr ⟨it.perfume_id,
        mkOnlyMsg pf.quantity (cartQty uid it.perfume_id (addUseSize it pf) st.carts)⟩))
  ∧ (cartQty uid it.perfume_id (addUseSize it pf) st.carts + it.quantity.getD 1 ≤
        pf.quantity →
      addOne uid st it =
        ({ st with carts := (upsertCart uid it.perfume_id (addUseSize it pf)
            (cartQty uid it.perfume_id (addUseSize it pf) st.carts + it.quantity.getD 1)
            st.carts) },
         .inl ⟨it.perfume_id,
           cartQty uid it.perfume_id (addUseSize it pf) st.carts + it.quantity.getD 1,
           addUseSize it pf⟩)) := by
  constructor
  · intro h
    unfold addOne
    simp only [hpf]
    rw [if_pos h]
  · intro h
    unfold addOne
    simp only [hpf]
    rw [if_neg (by omega)]

/-- Every item of the batch is accounted for: one `added` entry or one
`errors` entry each. -/
theorem addLoop_len (uid : Int) (items : List AddItemReq) :
    ∀ st : DBState,
      (addLoop uid items st).2.1.length + (addLoop uid items st).2.2.length =
        items.length := by
  induction items with
  | nil => intro st; rfl
  | cons it rest ih =>
    intro st
    unfold addLoop
    cases h : addOne uid st it with
    | mk st' r =>
      cases r with
      | inl a =>
        dsimp only
        have := ih st'
        simp only [List.length_cons]
        omega
      | inr e =>
        dsimp only
        have := ih st'
        simp only [List.length_cons]
        omega

/-! ## C8: batch response policy of `add_to_cart` -/

/-- C8: for a non-empty batch, every item contributes exactly one
`added` or one `errors` entry (failures never block other items — a
failing item also leaves the working state untouched, last conjunct);
the code is 400 when everything failed, 207 on a mix, 201 when
everything succeeded. -/
theorem claim_C8 (uid : Int) (items : List AddItemReq) (st : DBState)
    (hne : items ≠ []) :
    ((add_to_cart uid items st).1.added.length +
       (add_to_cart uid items st).1.errors.length = items.length)
  ∧ ((add_to_cart uid items st).1.errors ≠ [] →
      (add_to_cart uid items st).1.added = [] →
      (add_to_cart uid items st).1.code = 400)
  ∧ ((add_to_cart uid items st).1.errors ≠ [] →
      (add_to_cart uid items st).1.added ≠ [] →
      (add_to_cart uid items st).1.code = 207)
  ∧ ((add_to_cart uid items st).1.errors = [] →
      (add_to_cart uid items st).1.code = 201)
  ∧ (∀ (it : AddItemReq) (st₀ st' : DBState) (e : ItemError),
      addOne uid st₀ it = (st', .inr e) → st' = st₀) := by
  have hE : items.isEmpty = false := by simpa using hne
  have key := addLoop_len uid items st
  by_cases h1 : (addLoop uid items st).2.2.isEmpty = true
  · have hres : add_to_cart uid items st =
        (⟨201, some "All added", (addLoop uid items st).2.1,
          (addLoop uid items st).2.2⟩, (addLoop uid items st).1) := by
      unfold add_to_cart
      rw [if_neg (by simp [hE]), if_neg (by simp [h1]), if_neg (by simp [h1])]
    rw [hres]
    have h1' : (addLoop uid items st).2.2 = [] := by simpa using h1
    exact ⟨key, fun he _ => absurd h1' he, fun he _ => absurd h1' he, fun _ => rfl,
      fun it st₀ st' e h => addOne_inr_state uid st₀ it st' e h⟩
  · have h1' : (addLoop uid items st).2.2 ≠ [] := by simpa using h1
    by_cases h2 : (addLoop uid items st).2.1.isEmpty = true
    · have hres : add_to_cart uid items st =
          (⟨400, none, (addLoop uid items st).2.1,
            (addLoop uid items st).2.2⟩, (addLoop uid items st).1) := by
        unfold add_to_cart
        rw [if_neg (by simp [hE]), if_pos (by simp [h1, h2])]
      rw [hres]
      exact ⟨key, fun _ _ => rfl, fun _ ha => absurd (by simpa using h2) ha,
        fun he => absurd he h1',
        fun it st₀ st' e h => addOne_inr_state uid st₀ it st' e h⟩
    · have hres : add_to_cart uid items st =
          (⟨207, some "Partial success", (addLoop uid items st).2.1,
            (addLoop uid items st).2.2⟩, (addLoop uid items st).1) := by
        unfold add_to_cart
        rw [if_neg (by simp [hE]), if_neg (by simp [h2]), if_pos (by simp [h1])]
      rw [hres]
      exact ⟨key, fun _ he => absurd he (by simpa using h2),
        fun _ _ => rfl, fun he => absurd he h1',
        fun it st₀ st' e h => addOne_inr_state uid st₀ it st' e h⟩

/-- C8 witness: a batch with one good and one unknown item yields 207
with one entry in each list. -/
theorem claim_C8_witness :
    (add_to_cart 7 [⟨5, some 2, none⟩, ⟨99, some 1, none⟩] stScen).1.added.length +
      (add_to_cart 7 [⟨5, some 2, none⟩, ⟨99, some 1, none⟩] stScen).1.errors.length = 2 :=
  (claim_C8 7 [⟨5, some 2, none⟩, ⟨99, some 1, none⟩] stScen (by decide)).1

/-! ## C2: cumulative cart merge -/

/-- C2: a single-item `add_to_cart` call against an available perfume
(i) on success upserts the `(user, perfume, size)` row to
`existing + requested`, reporting that total; (ii) the row then holds
exactly that total; (iii) no other cart key changes; (iv) key
uniqueness of the ledger is preserved, so repeated calls keep a single
row whose quantity accumulates; (v) an addition whose total would
exceed stock is rejected, state unchanged, with the message reporting
stock and current quantity.  Finally the spec scenario: add 2 then 3
(stock 10) gives quantity 2 then 5, and adding 10 more is rejected
with `"Only 10 in stock (you have 5)"`. -/
theorem claim_C2 :
    (∀ (uid : Int) (st : DBState) (it : AddItemReq) (pf : Perfume),
      findAvail st.perfumes it.perfume_id = some pf →
      ((cartQty uid it.perfume_id (addUseSize it pf) st.carts + it.quantity.getD 1 ≤
          pf.quantity →
        add_to_cart uid [it] st =
          (⟨201, some "All added",
            [⟨it.perfume_id,
              cartQty uid it.perfume_id (addUseSize it pf) st.carts + it.quantity.getD 1,
              addUseSize it pf⟩], []⟩,
           { st with carts := (upsertCart uid it.perfume_id (addUseSize it pf)
              (cartQty uid it.perfume_id (addUseSize it pf) st.carts + it.quantity.getD 1)
              st.carts) }))
      ∧ (cartQty uid it.perfume_id (addUseSize it pf) st.carts + it.quantity.getD 1 ≤
          pf.quantity →
        cartQty uid it.perfume_id (addUseSize it pf) (add_to_cart uid [it] st).2.carts =
          cartQty uid it.perfume_id (addUseSize it pf) st.carts + it.quantity.getD 1)
      ∧ (cartQty uid it.perfume_id (addUseSize it pf) st.carts + it.quantity.getD 1 ≤
          pf.quantity →
        ∀ (uid' pid' : Int) (sz' : Option String),
          (uid', pid', sz'.getD "") ≠
            ((uid, it.perfume_id, (addUseSize it pf).getD "") : Int × Int × String) →
          cartQty uid' pid' sz' (add_to_cart uid [it] st).2.carts =
            cartQty uid' pid' sz' st.carts)
      ∧ (keysUnique st.carts → keysUnique (add_to_cart uid [it] st).2.carts)
      ∧ (pf.quantity <
          cartQty uid it.perfume_id (addUseSize it pf) st.carts + it.quantity.getD 1 →
        add_to_cart uid [it] st =
          (⟨400, none, [],
            [⟨it.perfume_id,
              mkOnlyMsg pf.quantity
                (cartQty uid it.perfume_id (addUseSize it pf) st.carts)⟩]⟩, st))))
  ∧ ((add_to_cart 7 [⟨5, some 2, none⟩] stScen).1.code = 201
     ∧ stScen1.carts = [⟨7, 5, 2, some "50ml"⟩]
     ∧ (add_to_cart 7 [⟨5, some 3, none⟩] stScen1).1.code = 201
     ∧ stScen2.carts = [⟨7, 5, 5, some "50ml"⟩]
     ∧ add_to_cart 7 [⟨5, some 10, none⟩] stScen2 =
         (⟨400, none, [], [⟨5, "Only 10 in stock (you have 5)"⟩]⟩, stScen2)) := by
  constructor
  · intro uid st it pf hpf
    obtain ⟨hrej, hacc⟩ := addOne_avail uid st it pf hpf
    have haccResp : cartQty uid it.perfume_id (addUseSize it pf) st.carts +
          it.quantity.getD 1 ≤ pf.quantity →
        add_to_cart uid [it] st =
          (⟨201, some "All added",
            [⟨it.perfume_id,
              cartQty uid it.perfume_id (addUseSize it pf) st.carts + it.quantity.getD 1,
              addUseSize it pf⟩], []⟩,
           { st with carts := (upsertCart uid it.perfume_id (addUseSize it pf)
              (cartQty uid it.perfume_id (addUseSize it pf) st.carts + it.quantity.getD 1)
              st.carts) }) := by
      intro h
      unfold add_to_cart addLoop
      rw [hacc h]
      rfl
    have hrejResp : pf.quantity <
          cartQty uid it.perfume_id (addUseSize it pf) st.carts + it.quantity.getD 1 →
        add_to_cart uid [it] st =
          (⟨400, none, [],
            [⟨it.perfume_id,
              mkOnlyMsg pf.quantity
                (cartQty uid it.perfume_id (addUseSize it pf) st.carts)⟩]⟩, st) := by
      intro h
      unfold add_to_cart addLoop
      rw [hrej h]
      rfl
    refine ⟨haccResp, ?_, ?_, ?_, hrejResp⟩
    · intro h
      rw [congrArg Prod.snd (haccResp h)]
      exact upsert_cartQty _ _ _ _ _
    · intro h uid' pid' sz' hneq
      rw [congrArg Prod.snd (haccResp h)]
      exact upsert_cartQty_other _ _ _ _ _ _ _ _ hneq
    · intro hu
      by_cases h : cartQty uid it.perfume_id (addUseSize it pf) st.carts +
          it.quantity.getD 1 ≤ pf.quantity
      · rw [congrArg Prod.snd (haccResp h)]
        exact upsert_keysUnique _ _ _ _ _ hu
      · rw [congrArg Prod.snd (hrejResp (by omega))]
        exact hu
  · refine ⟨by decide, by decide, by decide, by decide, by decide⟩

/-- C2 witness: the first scenario step through the generic theorem —
stock 10, empty cart, adding 2 is rejected nowhere and yields the
cumulated quantity 2. -/
theorem claim_C2_witness :
    add_to_cart 7 [⟨5, some 99, none⟩] stScen =
      (⟨400, none, [], [⟨5, mkOnlyMsg 10 0⟩]⟩, stScen) :=
  ((claim_C2.1 7 stScen ⟨5, some 99, none⟩ ⟨5, "Rose", 100, 10, some "50ml", true⟩
    (by decide)).2.2.2.2 (by decide))

/-! ## C10: no positivity check in `add_to_cart` -/

/-- C10: `add_to_cart` never checks that the requested quantity is
positive — (i) generically, an item with `quantity ≤ 0` is accepted
whenever `existing + requested` does not exceed stock, and the upsert
sets the row to that non-positive total; (ii) concretely, adding
quantity 0 to an empty cart succeeds (201) and creates a row with
quantity 0, breaking the every-cart-entry-is-positive invariant;
(iii) by contrast the checkout loop rejects any line item with
`quantity ≤ 0` with `"Quantity must be positive"`. -/
theorem claim_C10 :
    (∀ (uid : Int) (st : DBState) (it : AddItemReq) (pf : Perfume) (q : Int),
      findAvail st.perfumes it.perfume_id = some pf →
      it.quantity = some q → q ≤ 0 →
      cartQty uid it.perfume_id (addUseSize it pf) st.carts + q ≤ pf.quantity →
      addOne uid st it =
        ({ st with carts := (upsertCart uid it.perfume_id (addUseSize it pf)
            (cartQty uid it.perfume_id (addUseSize it pf) st.carts + q) st.carts) },
         .inl ⟨it.perfume_id,
           cartQty uid it.perfume_id (addUseSize it pf) st.carts + q,
           addUseSize it pf⟩))
  ∧ ((add_to_cart 1 [⟨5, some 0, none⟩] stScen).1.code = 201
     ∧ (add_to_cart 1 [⟨5, some 0, none⟩] stScen).2.carts = [⟨1, 5, 0, some "50ml"⟩]
     ∧ ¬(∀ r ∈ (add_to_cart 1 [⟨5, some 0, none⟩] stScen).2.carts, 0 < r.quantity))
  ∧ (∀ (oid : Int) (ws : DBState) (it : CheckoutItemReq)
        (rest : List CheckoutItemReq) (pid q pr : Int),
      it.perfume_id = some pid → it.quantity = some q → it.price = some pr →
      q ≤ 0 →
      processItems oid (it :: rest) ws = .error (400, "Quantity must be positive")) := by
  refine ⟨?_, ⟨by decide, by decide, by decide⟩, ?_⟩
  · intro uid st it pf q hpf hq hq0 hle
    have hacc := (addOne_avail uid st it pf hpf).2
    rw [hq, Option.getD_some] at hacc
    exact hacc hle
  · intro oid ws it rest pid q pr hpid hq hpr hq0
    unfold processItems
    rw [hpid, hq, hpr]
    simp only
    rw [if_pos hq0]

/-- C10 witness: adding a negative quantity is also accepted, the row
is upserted to a negative total; and the checkout loop rejects a zero
quantity on the same catalog. -/
theorem claim_C10_witness :
    addOne 1 stScen ⟨5, some (-3), none⟩ =
      ({ stScen with carts := [⟨1, 5, -3, some "50ml"⟩] }, .inl ⟨5, -3, some "50ml"⟩)
  ∧ processItems 1 [⟨some 5, some 0, none, some 100⟩] stScen =
      .error (400, "Quantity must be positive") := by
  constructor
  · have h := claim_C10.1 1 stScen ⟨5, some (-3), none⟩
      ⟨5, "Rose", 100, 10, some "50ml", true⟩ (-3) (by decide) rfl (by decide) (by decide)
    exact h.trans (by decide)
  · exact claim_C10.2.2 1 stScen ⟨some 5, some 0, none, some 100⟩ [] 5 0 100
      rfl rfl rfl (by decide)

/-! ## Checkout transaction lemmas -/

theorem perfumesLE_refl (ps : List Perfume) : perfumesLE ps ps :=
  List.forall₂_same.mpr (fun _ _ => ⟨rfl, rfl, rfl, le_refl _⟩)

theorem perfumesLE_trans {a b c : List Perfume}
    (h1 : perfumesLE a b) (h2 : perfumesLE b c) : perfumesLE a c := by
  induction h1 generalizing c with
  | nil => cases h2; exact .nil
  | @cons x y l1 l2 hxy h1' ih =>
    cases h2 with
    | cons hyz h2' =>
      exact .cons ⟨hxy.1.trans hyz.1, hxy.2.1.trans hyz.2.1,
        hxy.2.2.1.trans hyz.2.2.1, le_trans hxy.2.2.2 hyz.2.2.2⟩ (ih h2')

/-- The checkout stock decrement only lowers quantities, keeping ids,
names and availability. -/
theorem perfumesLE_decrement (ps : List Perfume) (pid qty : Int) (hq : 0 ≤ qty) :
    perfumesLE
      (ps.map (fun p => if p.id == pid then { p with quantity := p.quantity - qty } else p))
      ps := by
  induction ps with
  | nil => exact .nil
  | cons p rest ih =>
    simp only [List.map_cons]
    refine .cons ?_ ih
    by_cases h : (p.id == pid) = true
    · rw [if_pos h]; exact ⟨rfl, rfl, rfl, by dsimp only; omega⟩
    · rw [if_neg h]; exact ⟨rfl, rfl, rfl, le_refl _⟩

/-- The availability-checked lookup is stable along the catalog
relation: same hit/miss, the hit's name unchanged, its stock only
lower. -/
theorem findAvail_rel {ps' ps : List Perfume} (h : perfumesLE ps' ps) (pid : Int) :
    (findAvail ps' pid = none ↔ findAvail ps pid = none)
  ∧ (∀ pf', findAvail ps' pid = some pf' →
      ∃ pf, findAvail ps pid = some pf ∧ pf'.name = pf.name ∧
        pf'.quantity ≤ pf.quantity) := by
  induction h with
  | nil =>
    refine ⟨Iff.rfl, ?_⟩
    intro pf' h
    simp [findAvail] at h
  | @cons a' a l' l hr hrest ih =>
    have hpred : (a'.id == pid && a'.available) = (a.id == pid && a.available) := by
      rw [hr.1, hr.2.2.1]
    by_cases hp : (a.id == pid && a.available) = true
    · have hpos' : (fun p : Perfume => p.id == pid && p.available) a' = true := by
        show (a'.id == pid && a'.available) = true
        rw [hpred]; exact hp
      have hpos : (fun p : Perfume => p.id == pid && p.available) a = true := hp
      have hf1 : findAvail (a' :: l') pid = some a' := List.find?_cons_of_pos l' hpos'
      have hf2 : findAvail (a :: l) pid = some a := List.find?_cons_of_pos l hpos
      constructor
      · rw [hf1, hf2]; simp
      · intro pf' hf'
        rw [hf1] at hf'
        injection hf' with he
        subst he
        exact ⟨a, hf2, hr.2.1, hr.2.2.2⟩
    · have hneg' : ¬(fun p : Perfume => p.id == pid && p.available) a' = true := by
        show ¬(a'.id == pid && a'.available) = true
        rw [hpred]; exact hp
      have hf1 : findAvail (a' :: l') pid = findAvail l' pid := List.find?_cons_of_neg l' hneg'
      have hf2 : findAvail (a :: l) pid = findAvail l pid := List.find?_cons_of_neg l hp
      constructor
      · rw [hf1, hf2]; exact ih.1
      · intro pf' hf'
        rw [hf1] at hf'
        obtain ⟨pf, hpf, hnm, hle⟩ := ih.2 pf' hf'
        exact ⟨pf, by rw [hf2]; exact hpf, hnm, hle⟩

/-- If some line item is doomed against the initial catalog (missing,
unavailable or under-stocked), the checkout item loop must abort with
an error: stock only shrinks while the loop runs, so a doomed item can
only fail (or a failure occurs even earlier). -/
theorem processItems_fails (ps₀ : List Perfume) (oid : Int) :
    ∀ (items : List CheckoutItemReq) (ws : DBState),
      perfumesLE ws.perfumes ps₀ → items.any (badItem ps₀) = true →
      ∃ c m, processItems oid items ws = .error (c, m) := by
  intro items
  induction items with
  | nil =>
    intro ws _ hbad
    simp at hbad
  | cons it rest ih =>
    intro ws hrel hbad
    rcases hpid : it.perfume_id with _ | pid
    · exact ⟨400, "Invalid item data format", by unfold processItems; rw [hpid]⟩
    rcases hq : it.quantity with _ | q
    · exact ⟨400, "Invalid item data format", by unfold processItems; rw [hpid, hq]⟩
    rcases hpr : it.price with _ | pr
    · exact ⟨400, "Invalid item data format", by unfold processItems; rw [hpid, hq, hpr]⟩
    by_cases hq0 : q ≤ 0
    · exact ⟨400, "Quantity must be positive", by
        unfold processItems; rw [hpid, hq, hpr]; simp only; rw [if_pos hq0]⟩
    cases hfind : findAvail ws.perfumes pid with
    | none =>
      exact ⟨404, mkNotFoundMsg pid, by
        unfold processItems; rw [hpid, hq, hpr]; simp only
        rw [if_neg hq0]; simp only [hfind]⟩
    | some pf =>
      by_cases hstock : pf.quantity < q
      · exact ⟨400, mkLeftMsg pf.quantity pf.name, by
          unfold processItems; rw [hpid, hq, hpr]; simp only
          rw [if_neg hq0]; simp only [hfind]
          rw [if_pos hstock]⟩
      · have hbad' : rest.any (badItem ps₀) = true := by
          rcases List.any_eq_true.mp hbad with ⟨x, hx, hpx⟩
          rcases List.mem_cons.mp hx with rfl | hx'
          · exfalso
            unfold badItem at hpx
            simp only [hpid, hq] at hpx
            cases hfind0 : findAvail ps₀ pid with
            | none =>
              have h2 := (findAvail_rel hrel pid).1.mpr hfind0
              rw [hfind] at h2
              cases h2
            | some pf₀ =>
              simp only [hfind0] at hpx
              have hlt : pf₀.quantity < q := by simpa using hpx
              obtain ⟨pf₁, hpf₁, _, hle⟩ := (findAvail_rel hrel pid).2 pf hfind
              rw [hpf₁] at hfind0
              injection hfind0 with he
              subst he
              omega
          · exact List.any_eq_true.mpr ⟨x, hx', hpx⟩
        have hrel' : perfumesLE
            (ws.perfumes.map (fun p =>
              if p.id == pid then { p with quantity := p.quantity - q } else p)) ps₀ :=
          perfumesLE_trans (perfumesLE_decrement ws.perfumes pid q (by omega)) hrel
        obtain ⟨c, m, hcm⟩ := ih
          { ws with
            orderItems := ws.orderItems ++
              [⟨oid, pid, q,
                (match it.selectedSize with
                 | some s => if s == "" then none else some s
                 | none => none), pr⟩],
            perfumes := ws.perfumes.map (fun p =>
              if p.id == pid then { p with quantity := p.quantity - q } else p) }
          hrel' hbad'
        exact ⟨c, m, by
          unfold processItems; rw [hpid, hq, hpr]; simp only
          rw [if_neg hq0]; simp only [hfind]
          rw [if_neg hstock]
          exact hcm⟩

/-- When every line item is well-formed with positive quantity, any
error of the checkout item loop is the 404 or the stock message of an
item of the list (names taken from the initial catalog, remaining
stock never above the initial one). -/
theorem processItems_error_names (ps₀ : List Perfume) (oid : Int) :
    ∀ (items : List CheckoutItemReq) (ws : DBState) (c : Nat) (m : String),
      perfumesLE ws.perfumes ps₀ → items.all wfPosItem = true →
      processItems oid items ws = .error (c, m) → errNamesItem ps₀ items c m := by
  intro items
  induction items with
  | nil =>
    intro ws c m _ _ h
    rw [processItems] at h
    cases h
  | cons it rest ih =>
    intro ws c m hrel hwf h
    have hwf1 : wfPosItem it = true := by
      have := List.all_eq_true.mp hwf it (List.mem_cons_self it rest)
      exact this
    have hwfr : rest.all wfPosItem = true := by
      rw [List.all_eq_true]
      intro x hx
      exact List.all_eq_true.mp hwf x (List.mem_cons_of_mem it hx)
    rcases hpid : it.perfume_id with _ | pid
    · rw [wfPosItem, hpid] at hwf1; simp at hwf1
    rcases hq : it.quantity with _ | q
    · rw [wfPosItem, hq] at hwf1; simp at hwf1
    rcases hpr : it.price with _ | pr
    · rw [wfPosItem, hpr] at hwf1; simp at hwf1
    have hq0 : 0 < q := by
      have h5 := hwf1
      rw [wfPosItem, hpid, hq, hpr] at h5
      simpa using h5
    unfold processItems at h
    rw [hpid, hq, hpr] at h
    simp only at h
    rw [if_neg (by omega)] at h
    cases hfind : findAvail ws.perfumes pid with
    | none =>
      simp only [hfind] at h
      injection h with he
      have he' := he.symm
      rw [Prod.mk.injEq] at he'
      exact ⟨it, List.mem_cons_self it rest, pid, hpid,
        Or.inl ⟨he'.1, he'.2, (findAvail_rel hrel pid).1.mp hfind⟩⟩
    | some pf =>
      simp only [hfind] at h
      by_cases hstock : pf.quantity < q
      · rw [if_pos hstock] at h
        injection h with he
        have he' := he.symm
        rw [Prod.mk.injEq] at he'
        obtain ⟨pf₁, hpf₁, hnm, hle⟩ := (findAvail_rel hrel pid).2 pf hfind
        refine ⟨it, List.mem_cons_self it rest, pid, hpid,
          Or.inr ⟨he'.1, pf.quantity, pf₁, hpf₁, ?_, hle⟩⟩
        rw [he'.2, hnm]
      · rw [if_neg hstock] at h
        have hrel' : perfumesLE
            (ws.perfumes.map (fun p =>
              if p.id == pid then { p with quantity := p.quantity - q } else p)) ps₀ :=
          perfumesLE_trans (perfumesLE_decrement ws.perfumes pid q (by omega)) hrel
        obtain ⟨it', hit', pid', hpid', hcase⟩ := ih _ c m hrel' hwfr h
        exact ⟨it', List.mem_cons_of_mem it hit', pid', hpid', hcase⟩

/-- The checkout item loop only writes `order_items` rows and stock
decrements: carts, payments and orders pass through untouched. -/
theorem processItems_frame (oid : Int) :
    ∀ (items : List CheckoutItemReq) (ws ws1 : DBState),
      processItems oid items ws = .ok ws1 →
      ws1.carts = ws.carts ∧ ws1.payments = ws.payments ∧ ws1.orders = ws.orders := by
  intro items
  induction items with
  | nil =>
    intro ws ws1 h
    rw [processItems] at h
    injection h with he
    subst he
    exact ⟨rfl, rfl, rfl⟩
  | cons it rest ih =>
    intro ws ws1 h
    rcases hpid : it.perfume_id with _ | pid <;> rw [processItems, hpid] at h
    · cases h
    rcases hq : it.quantity with _ | q <;> rw [hq] at h
    · cases h
    rcases hpr : it.price with _ | pr <;> rw [hpr] at h
    · cases h
    simp only at h
    by_cases hq0 : q ≤ 0
    · rw [if_pos hq0] at h; cases h
    rw [if_neg hq0] at h
    cases hfind : findAvail ws.perfumes pid with
    | none =>
      simp only [hfind] at h
      cases h
    | some pf =>
      simp only [hfind] at h
      by_cases hstock : pf.quantity < q
      · rw [if_pos hstock] at h; cases h
      · rw [if_neg hstock] at h
        have hres := ih _ ws1 h
        exact hres

/-! ## String/blank helper lemmas -/

theorem digit_not_space (c : Char) (h : c.isDigit = true) : pyIsSpace c = false := by
  have h1 : c ≠ ' ' := by rintro rfl; exact absurd h (by decide)
  have h2 : c ≠ '\t' := by rintro rfl; exact absurd h (by decide)
  have h3 : c ≠ '\n' := by rintro rfl; exact absurd h (by decide)
  have h4 : c ≠ '\r' := by rintro rfl; exact absurd h (by decide)
  have h5 : c ≠ '\x0b' := by rintro rfl; exact absurd h (by decide)
  have h6 : c ≠ '\x0c' := by rintro rfl; exact absurd h (by decide)
  simp [pyIsSpace, h1, h2, h3, h4, h5, h6]

theorem dropWhile_all_false {p : Char → Bool} (l : List Char)
    (h : ∀ c ∈ l, p c = false) : l.dropWhile p = l := by
  cases l with
  | nil => rfl
  | cons a rest =>
    rw [List.dropWhile_cons, h a (List.mem_cons_self a rest)]
    simp

/-- Trimming does nothing to a string with no whitespace at all. -/
theorem pyStrip_no_space (s : String) (h : ∀ c ∈ s.data, pyIsSpace c = false) :
    pyStrip s = s := by
  unfold pyStrip
  rw [dropWhile_all_false s.data h]
  rw [dropWhile_all_false s.data.reverse (fun c hc => h c (List.mem_reverse.mp hc))]
  rw [List.reverse_reverse]

theorem pyIsDigit_strip (s : String) (h : pyIsDigit s = true) : pyStrip s = s := by
  unfold pyIsDigit at h
  simp only [Bool.and_eq_true, Bool.not_eq_true', List.all_eq_true] at h
  exact pyStrip_no_space s (fun c hc => digit_not_space c (h.2 c hc))

theorem isBlank_some (s : String) : isBlank (some s) = (pyStrip s == "") := by
  show (s == "" || pyStrip s == "") = (pyStrip s == "")
  by_cases hs : s = ""
  · subst hs; rfl
  · simp [hs]

theorem pyIsDigit_not_blank (s : String) (h : pyIsDigit s = true) :
    isBlank (some s) = false := by
  have hs : s ≠ "" := by
    intro he
    subst he
    exact absurd h (by decide)
  rw [isBlank_some, pyIsDigit_strip s h]
  simp [hs]

/-- `s[-4:]` is at most 4 characters — only the last 4 digits are ever
stored. -/
theorem pyTakeLast_len_le (n : Nat) (s : String) : (pyTakeLast n s).length ≤ n := by
  show (s.data.drop (s.data.length - n)).length ≤ n
  rw [List.length_drop]
  omega

/-! ## Checkout success anatomy -/

theorem finalizeTx_spec (uid oid : Int) (pm : String) (cd : CardReq) (ws1 : DBState) :
    ((finalizeTx uid oid pm cd ws1).1 = if pm == "card" then "paid" else "cod_pending")
  ∧ ((finalizeTx uid oid pm cd ws1).2.payments =
      if pm == "card" then
        ws1.payments ++
          [⟨oid, "card", pyTakeLast 4 (stripSpaces (cd.cardNumber.getD "")),
            cd.cardName.getD "", cd.expiry.getD ""⟩]
      else ws1.payments)
  ∧ ((finalizeTx uid oid pm cd ws1).2.carts =
      ws1.carts.filter (fun c => !(c.user_id == uid)))
  ∧ ((finalizeTx uid oid pm cd ws1).2.orders =
      ws1.orders.map (fun o =>
        if o.id == oid then
          { o with status := if pm == "card" then "paid" else "cod_pending" }
        else o)) := by
  by_cases hpm : (pm == "card") = true
  · simp [finalizeTx, hpm]
  · simp [finalizeTx, hpm]

/-- Any non-201 checkout outcome leaves the persisted state exactly as
it was: the transaction is rolled back (or never opened). -/
theorem checkout_err_state (uid now : Int) (d : CheckoutReq) (st : DBState)
    (c : Nat) (m : String) (st' : DBState)
    (h : checkout uid now d st = (.err c m, st')) : st' = st := by
  unfold checkout at h
  cases haux : checkoutAux uid now d st with
  | error e =>
    obtain ⟨c0, m0⟩ := e
    rw [haux] at h
    injection h with h1 h2
    exact h2.symm
  | ok s =>
    rw [haux] at h
    injection h with h1 h2
    cases h1

/-- Anatomy of a successful checkout: the new order id is the consumed
counter; the payment method is card or cod; a card payment finishes
`paid` with exactly one new masked payment row, a cod payment finishes
`cod_pending` adding none; the user's cart rows are all deleted; and
every order row carrying the new id holds the final status. -/
theorem checkout_ok_spec (uid now : Int) (d : CheckoutReq) (st : DBState)
    (oid : Int) (fs pm : String) (tot : Int) (st' : DBState)
    (h : checkout uid now d st = (.ok oid fs pm tot, st')) :
    oid = st.nextOrderId
  ∧ (pm = "card" ∨ pm = "cod")
  ∧ fs = (if pm == "card" then "paid" else "cod_pending")
  ∧ (st'.payments =
      if pm == "card" then
        st.payments ++
          [⟨oid, "card",
            pyTakeLast 4 (stripSpaces ((d.card_details.getD emptyCard).cardNumber.getD "")),
            (d.card_details.getD emptyCard).cardName.getD "",
            (d.card_details.getD emptyCard).expiry.getD ""⟩]
      else st.payments)
  ∧ st'.carts = st.carts.filter (fun c => !(c.user_id == uid))
  ∧ (∀ o ∈ st'.orders, o.id = oid → o.status = fs)
  ∧ (∃ o ∈ st'.orders, o.id = oid ∧ o.status = fs) := by
  unfold checkout at h
  cases haux : checkoutAux uid now d st with
  | error e =>
    obtain ⟨c0, m0⟩ := e
    rw [haux] at h
    injection h with h1 h2
    cases h1
  | ok s =>
    rw [haux] at h
    injection h with h1 h2
    injection h1 with e1 e2 e3 e4
    unfold checkoutAux at haux
    split at haux
    · rename_i shipping pmRaw items totalPrice tax shippingCost hsh hpm hits htp htx hsc
      simp only at haux
      split at haux
      · exact absurd haux (by simp)
      split at haux
      · exact absurd haux (by simp)
      split at haux
      · exact absurd haux (by simp)
      split at haux
      · exact absurd haux (by simp)
      rename_i hpmok hne v1 hship v2 hcd
      split at haux
      · exact absurd haux (by simp)
      rename_i ws1 hpi
      injection haux with hs
      subst hs
      simp only at e1 e2 e3 e4 h2
      obtain ⟨hfc, hfp, hfcart, hford⟩ :=
        finalizeTx_spec uid st.nextOrderId (pyLower pmRaw)
          (d.card_details.getD emptyCard) ws1
      obtain ⟨hc1, hc2, hc3⟩ := processItems_frame st.nextOrderId items _ ws1 hpi
      have horders : ws1.orders = st.orders ++
          [mkOrderRow uid now st.nextOrderId shipping (pyLower pmRaw) totalPrice
            shippingCost tax] := hc3
      have hpmcases : pyLower pmRaw = "card" ∨ pyLower pmRaw = "cod" := by
        by_cases hcase : pyLower pmRaw = "card"
        · exact Or.inl hcase
        · by_cases hcase2 : pyLower pmRaw = "cod"
          · exact Or.inr hcase2
          · exact absurd (by simp [hcase, hcase2]) hpmok
      have hall : ∀ o ∈ st'.orders, o.id = oid → o.status = fs := by
        intro o ho hid
        rw [← h2, hford] at ho
        obtain ⟨o', _, rfl⟩ := List.mem_map.mp ho
        by_cases hb : (o'.id == st.nextOrderId) = true
        · rw [if_pos hb]
          show (if (pyLower pmRaw == "card") = true then "paid" else "cod_pending") = fs
          rw [← e2, hfc]
        · rw [if_neg hb] at hid
          rw [← e1] at hid
          exact absurd (by simp [hid]) hb
      have hex0 : ∃ o ∈ st'.orders, o.id = oid := by
        rw [← h2, hford, horders]
        refine ⟨_, List.mem_map.mpr ⟨mkOrderRow uid now st.nextOrderId shipping
          (pyLower pmRaw) totalPrice shippingCost tax,
          List.mem_append_right _ (List.mem_singleton.mpr rfl), rfl⟩, ?_⟩
        by_cases hb : ((mkOrderRow uid now st.nextOrderId shipping (pyLower pmRaw)
            totalPrice shippingCost tax).id == st.nextOrderId) = true
        · rw [if_pos hb]
          exact e1
        · rw [if_neg hb]
          exact e1
      refine ⟨e1.symm, ?_, ?_, ?_, ?_, hall, ?_⟩
      · rw [← e3]; exact hpmcases
      · rw [← e2, ← e3, hfc]
      · rw [← h2, ← e3, ← e1, hfp, hc2]
        rfl
      · rw [← h2, hfcart, hc1]
        rfl
      · obtain ⟨o, ho, hoid⟩ := hex0
        exact ⟨o, ho, hoid, hall o ho hoid⟩
    · exact absurd haux (by simp)

/-! ## C6: checkout clears the whole cart -/

/-- C6: every successful checkout deletes all of the user's cart rows
in the committed state — the remaining ledger is exactly the other
users' rows (full clear, not per-item) — so `view_cart` then returns
no rows at all for that user. -/
theorem claim_C6 (uid now : Int) (d : CheckoutReq) (st : DBState)
    (oid : Int) (fs pm : String) (tot : Int) (st' : DBState)
    (h : checkout uid now d st = (.ok oid fs pm tot, st')) :
    st'.carts = st.carts.filter (fun c => !(c.user_id == uid))
  ∧ st'.carts.filter (fun c => c.user_id == uid) = []
  ∧ view_cart uid st' = [] := by
  obtain ⟨_, _, _, _, hcarts, _, _⟩ := checkout_ok_spec uid now d st oid fs pm tot st' h
  have hfil : st'.carts.filter (fun c => c.user_id == uid) = [] := by
    rw [hcarts, List.filter_filter]
    rw [List.filter_eq_nil_iff]
    intro a _
    cases hb : (a.user_id == uid) <;> simp [hb]
  refine ⟨hcarts, hfil, ?_⟩
  unfold view_cart
  rw [hfil]
  rfl

/-- C6 witness: a concrete successful COD checkout of a user whose
cart holds the ordered item — the view afterwards is empty. -/
theorem claim_C6_witness :
    view_cart 1 (checkout 1 99 codDemo stScen1cart).2 = [] :=
  (claim_C6 1 99 codDemo stScen1cart 1 "cod_pending" "cod" 215
    (checkout 1 99 codDemo stScen1cart).2 (by decide)).2.2

/-! ## C3: final status and masked payment row -/

/-- C3: for every successful checkout — a cod payment ends `cod_pending`
with no new PaymentDetail row; a card payment ends `paid` with exactly
one new row holding only the last 4 characters of the space-stripped
card number (never more than 4 characters of it), the holder name and
the expiry; the stored status of the new order row agrees; and
`"4111 1111 1111 1111"` masks to `"1111"`. -/
theorem claim_C3 (uid now : Int) (d : CheckoutReq) (st : DBState)
    (oid : Int) (fs pm : String) (tot : Int) (st' : DBState)
    (h : checkout uid now d st = (.ok oid fs pm tot, st')) :
    (pm = "cod" → fs = "cod_pending" ∧ st'.payments = st.payments)
  ∧ (pm = "card" → fs = "paid"
      ∧ st'.payments = st.payments ++
          [⟨oid, "card",
            pyTakeLast 4 (stripSpaces ((d.card_details.getD emptyCard).cardNumber.getD "")),
            (d.card_details.getD emptyCard).cardName.getD "",
            (d.card_details.getD emptyCard).expiry.getD ""⟩]
      ∧ (∀ pr ∈ st'.payments, pr ∉ st.payments → pr.card_last4.length ≤ 4))
  ∧ (pm = "card" ∨ pm = "cod")
  ∧ (∀ o ∈ st'.orders, o.id = oid → o.status = fs)
  ∧ (∃ o ∈ st'.orders, o.id = oid ∧ o.status = fs)
  ∧ pyTakeLast 4 (stripSpaces "4111 1111 1111 1111") = "1111" := by
  obtain ⟨hoid, hpm, hfs, hpay, hcarts, hall, hex⟩ :=
    checkout_ok_spec uid now d st oid fs pm tot st' h
  refine ⟨?_, ?_, hpm, hall, hex, by decide⟩
  · intro hc
    subst hc
    refine ⟨by rw [hfs, if_neg (by decide)], by rw [hpay, if_neg (by decide)]⟩
  · intro hc
    subst hc
    refine ⟨by rw [hfs, if_pos (by decide : (("card" == "card") = true))],
      by rw [hpay, if_pos (by decide : (("card" == "card") = true))], ?_⟩
    intro pr hpr hnot
    rw [hpay, if_pos (by decide : (("card" == "card") = true))] at hpr
    rcases List.mem_append.mp hpr with hin | hin
    · exact absurd hin hnot
    · rw [List.mem_singleton.mp hin]
      exact pyTakeLast_len_le 4 _

/-- C3 witness: the spec's card scenario — `"4111 1111 1111 1111"` is
stored as `card_last4 = "1111"` in the single new payment row of a
concrete card checkout. -/
theorem claim_C3_witness :
    (checkout 1 99 cardDemo stScen).2.payments =
      stScen.payments ++
        [⟨1, "card",
          pyTakeLast 4 (stripSpaces ((cardDemo.card_details.getD emptyCard).cardNumber.getD "")),
          (cardDemo.card_details.getD emptyCard).cardName.getD "",
          (cardDemo.card_details.getD emptyCard).expiry.getD ""⟩] :=
  ((claim_C3 1 99 cardDemo stScen 1 "paid" "card" 215
    (checkout 1 99 cardDemo stScen).2 (by decide)).2.1 rfl).2.1

/-! ## C5: card validation -/

/-- C5: the source card validator accepts exactly the payloads the
claim describes — holder name, number, expiry and CVV present and
non-blank, the number 13–19 characters long after stripping spaces,
the CVV 3 or 4 numeric digits (`cardFieldsWellFormed` is written from
the claim's wording); and every card checkout whose card block
violates these rules is rejected 400 with the persisted state
untouched. -/
theorem claim_C5 :
    (∀ cd : CardReq, firstCardError cd = none ↔ cardFieldsWellFormed cd = true)
  ∧ (∀ (uid now : Int) (d : CheckoutReq) (st : DBState) (pm : String),
      d.payment_method = some pm → pyLower pm = "card" →
      cardFieldsWellFormed (d.card_details.getD emptyCard) = false →
      ∃ m, checkout uid now d st = (.err 400 m, st)) := by
  have hiff : ∀ cd : CardReq, firstCardError cd = none ↔ cardFieldsWellFormed cd = true := by
    intro cd
    rcases hn : cd.cardName with _ | nm
    · constructor
      · intro h
        rw [show firstCardError cd = some "Card cardName is required" from by
          unfold firstCardError; rw [hn]; rfl] at h
        cases h
      · intro h
        rw [show cardFieldsWellFormed cd = false from by
          unfold cardFieldsWellFormed; rw [hn]; rfl] at h
        cases h
    rcases hnum : cd.cardNumber with _ | num
    · constructor
      · intro h
        unfold firstCardError at h
        rw [hn, hnum] at h
        by_cases hb : isBlank (some nm) = true
        · rw [if_pos hb] at h; cases h
        · rw [if_neg hb, if_pos (show isBlank none = true from rfl)] at h; cases h
      · intro h
        unfold cardFieldsWellFormed at h
        rw [hnum] at h
        simp at h
    rcases hexp : cd.expiry with _ | exp
    · constructor
      · intro h
        unfold firstCardError at h
        rw [hn, hnum, hexp] at h
        by_cases hb : isBlank (some nm) = true
        · rw [if_pos hb] at h; cases h
        rw [if_neg hb] at h
        by_cases hb2 : isBlank (some num) = true
        · rw [if_pos hb2] at h; cases h
        rw [if_neg hb2] at h
        split at h
        · cases h
        rw [if_pos (show isBlank none = true from rfl)] at h
        cases h
      · intro h
        unfold cardFieldsWellFormed at h
        rw [hexp] at h
        simp at h
    rcases hcvv : cd.cvv with _ | cvv
    · constructor
      · intro h
        unfold firstCardError at h
        rw [hn, hnum, hexp, hcvv] at h
        by_cases hb : isBlank (some nm) = true
        · rw [if_pos hb] at h; cases h
        rw [if_neg hb] at h
        by_cases hb2 : isBlank (some num) = true
        · rw [if_pos hb2] at h; cases h
        rw [if_neg hb2] at h
        split at h
        · cases h
        by_cases hb3 : isBlank (some exp) = true
        · rw [if_pos hb3] at h; cases h
        rw [if_neg hb3, if_pos (show isBlank none = true from rfl)] at h
        cases h
      · intro h
        unfold cardFieldsWellFormed at h
        rw [hcvv] at h
        simp at h
    unfold firstCardError cardFieldsWellFormed
    rw [hn, hnum, hexp, hcvv]
    simp only [Option.getD_some]
    split_ifs with b1 b2 b3 b4 b5 b6
    · constructor
      · intro h; cases h
      · intro h
        simp only [Bool.and_eq_true] at h
        have hA := h.1.1.1
        rw [Bool.not_eq_true'] at hA
        rw [isBlank_some] at b1
        rw [b1] at hA
        cases hA
    · constructor
      · intro h; cases h
      · intro h
        simp only [Bool.and_eq_true] at h
        have hB := h.1.1.2.1.1
        rw [Bool.not_eq_true'] at hB
        rw [isBlank_some] at b2
        rw [b2] at hB
        cases hB
    · constructor
      · intro h; cases h
      · intro h
        simp only [Bool.and_eq_true, decide_eq_true_eq] at h
        have h13 := h.1.1.2.1.2
        have h19 := h.1.1.2.2
        simp only [Bool.or_eq_true, decide_eq_true_eq] at b3
        omega
    · constructor
      · intro h; cases h
      · intro h
        simp only [Bool.and_eq_true] at h
        have hC := h.1.2
        rw [Bool.not_eq_true'] at hC
        rw [isBlank_some] at b4
        rw [b4] at hC
        cases hC
    · constructor
      · intro h; cases h
      · intro h
        simp only [Bool.and_eq_true] at h
        exact absurd (pyIsDigit_not_blank cvv h.2.1) (by simp [b5])
    · constructor
      · intro h; cases h
      · intro h
        simp only [Bool.and_eq_true] at h
        simp [h.2.1, h.2.2] at b6
    · constructor
      · intro _
        have hA : (pyStrip nm == "") = false := by
          rw [isBlank_some] at b1
          simpa using b1
        have hB1 : (pyStrip num == "") = false := by
          rw [isBlank_some] at b2
          simpa using b2
        simp only [Bool.or_eq_true, decide_eq_true_eq, not_or] at b3
        have h13 : 13 ≤ (stripSpaces num).length := by omega
        have h19 : (stripSpaces num).length ≤ 19 := by omega
        have hC : (pyStrip exp == "") = false := by
          rw [isBlank_some] at b4
          simpa using b4
        have hD : (pyIsDigit cvv && (cvv.length == 3 || cvv.length == 4)) = true := by
          rw [Bool.not_eq_true, Bool.not_eq_false'] at b6
          exact b6
        simp [hA, hB1, hC, hD, h13, h19]
      · intro _; rfl
  refine ⟨hiff, ?_⟩
  intro uid now d st pm hpm hcard hwf
  have hcderr : firstCardError (d.card_details.getD emptyCard) ≠ none := by
    intro h0
    have hh := (hiff _).mp h0
    rw [hwf] at hh
    cases hh
  obtain ⟨msg, hmsg⟩ := Option.ne_none_iff_exists'.mp hcderr
  rcases hsh : d.shipping with _ | sh
  · exact ⟨_, by unfold checkout checkoutAux; rw [hsh]⟩
  rcases hits : d.items with _ | items
  · exact ⟨_, by unfold checkout checkoutAux; rw [hsh, hpm, hits]⟩
  rcases htp : d.totalPrice with _ | tp
  · exact ⟨_, by unfold checkout checkoutAux; rw [hsh, hpm, hits, htp]⟩
  rcases htx : d.tax with _ | tx
  · exact ⟨_, by unfold checkout checkoutAux; rw [hsh, hpm, hits, htp, htx]⟩
  rcases hsc : d.shippingCost with _ | sc
  · exact ⟨_, by unfold checkout checkoutAux; rw [hsh, hpm, hits, htp, htx, hsc]⟩
  have hpmneg : ¬(pyLower pm != "card" && pyLower pm != "cod") = true := by
    simp [hcard]
  by_cases hemp : items.isEmpty = true
  · refine ⟨"Items must be a non-empty list", ?_⟩
    unfold checkout checkoutAux
    rw [hsh, hpm, hits, htp, htx, hsc]
    simp only
    rw [if_neg hpmneg, if_pos hemp]
  cases hfbs : firstBadShipping sh with
  | some k =>
    refine ⟨s!"Shipping {k} is required and cannot be empty", ?_⟩
    unfold checkout checkoutAux
    rw [hsh, hpm, hits, htp, htx, hsc]
    simp only
    rw [if_neg hpmneg, if_neg hemp]
    simp only [hfbs]
  | none =>
    refine ⟨msg, ?_⟩
    unfold checkout checkoutAux
    rw [hsh, hpm, hits, htp, htx, hsc]
    simp only
    rw [if_neg hpmneg, if_neg hemp]
    simp only [hfbs]
    rw [show (if (pyLower pm == "card") = true
        then firstCardError (d.card_details.getD emptyCard) else none) =
          some msg from by rw [if_pos (by simp [hcard]), hmsg]]

/-- C5 witness: a card checkout whose number is 4 digits after
stripping is rejected with the validation error, nothing persisted. -/
theorem claim_C5_witness :
    cardFieldsWellFormed (shortCardDemo.card_details.getD emptyCard) = false
  ∧ ∃ m, checkout 1 99 shortCardDemo stScen = (.err 400 m, stScen) :=
  ⟨by decide, claim_C5.2 1 99 shortCardDemo stScen "card" rfl (by decide) (by decide)⟩

/-! ## C1: checkout atomicity -/

/-- C1: (i) every non-success checkout outcome persists nothing — no
Order row, no OrderItem row, no stock decrement survives, including
writes made for earlier line items of the same call; and (ii) whenever
a payload that passes validation, with well-formed positive-quantity
line items, contains some item whose perfume is missing/unavailable or
has less stock than requested, the whole call fails with an error
naming an offending item (the 404 with its perfume id, or the
remaining-stock message with the perfume's name) and the persisted
state is exactly the initial one. -/
theorem claim_C1 :
    (∀ (uid now : Int) (d : CheckoutReq) (st : DBState) (c : Nat) (m : String)
        (st' : DBState), checkout uid now d st = (.err c m, st') → st' = st)
  ∧ (∀ (uid now : Int) (d : CheckoutReq) (st : DBState) (items : List CheckoutItemReq),
      d.items = some items → checkoutValid d = true →
      items.all wfPosItem = true → items.any (badItem st.perfumes) = true →
      ∃ c m, checkout uid now d st = (.err c m, st) ∧
        errNamesItem st.perfumes items c m) := by
  constructor
  · exact fun uid now d st c m st' h => checkout_err_state uid now d st c m st' h
  · intro uid now d st items hits hv hwf hbad
    rcases hsh : d.shipping with _ | sh
    · simp only [checkoutValid, hsh] at hv
      exact absurd hv (by decide)
    rcases hpm : d.payment_method with _ | pm
    · simp only [checkoutValid, hsh, hpm] at hv
      exact absurd hv (by decide)
    simp only [checkoutValid, hsh, hpm, hits, Bool.and_eq_true] at hv
    obtain ⟨⟨⟨⟨hor, hne⟩, hship⟩, hcard⟩, ⟨htp0, htx0⟩, hsc0⟩ := hv
    obtain ⟨tp, htp⟩ := Option.isSome_iff_exists.mp htp0
    obtain ⟨tx, htx⟩ := Option.isSome_iff_exists.mp htx0
    obtain ⟨sc, hsc⟩ := Option.isSome_iff_exists.mp hsc0
    have hempty : items.isEmpty = false := by simpa using hne
    have hpmneg : ¬(pyLower pm != "card" && pyLower pm != "cod") = true := by
      rcases (by simpa using hor :
          pyLower pm = "card" ∨ pyLower pm = "cod") with h0 | h0 <;> simp [h0]
    have hshipnone : firstBadShipping sh = none := by simpa using hship
    have hcdnone : (if (pyLower pm == "card") = true
        then firstCardError (d.card_details.getD emptyCard) else none) = none := by
      by_cases hc : (pyLower pm == "card") = true
      · rw [if_pos hc]
        rcases (by simpa using hcard : ¬pyLower pm = "card" ∨
            firstCardError (d.card_details.getD emptyCard) = none) with h0 | h0
        · exact absurd (beq_iff_eq.mp hc) h0
        · exact h0
      · rw [if_neg hc]
    have hrel : perfumesLE
        (openTx st (mkOrderRow uid now st.nextOrderId sh (pyLower pm) tp sc tx)).perfumes
        st.perfumes := perfumesLE_refl st.perfumes
    obtain ⟨c, m, hcm⟩ :=
      processItems_fails st.perfumes st.nextOrderId items _ hrel hbad
    have hnames :=
      processItems_error_names st.perfumes st.nextOrderId items _ c m hrel hwf hcm
    have haux : checkoutAux uid now d st = .error (c, m) := by
      unfold checkoutAux
      rw [hsh, hpm, hits, htp, htx, hsc]
      simp only
      rw [if_neg hpmneg, if_neg (by simp [hempty])]
      simp only [hshipnone, hcdnone, hcm]
    refine ⟨c, m, ?_, hnames⟩
    unfold checkout
    rw [haux]

/-- C1 witness: a concrete checkout asking for 20 units of a perfume
with stock 10 fails, names the item, and leaves the state untouched. -/
theorem claim_C1_witness :
    ∃ c m, checkout 1 99 overDemo stScen = (.err c m, stScen) ∧
      errNamesItem stScen.perfumes [⟨some 5, some 20, none, some 100⟩] c m :=
  claim_C1.2 1 99 overDemo stScen [⟨some 5, some 20, none, some 100⟩]
    rfl (by decide) (by decide) (by decide)
